import Mathlib

/-!
Shallow embedding of the atomix sound-mixing library (`atomix.h`) in Lean 4.

Modelling conventions:
* C `float` values are modelled as exact rationals (`ℚ`); float arithmetic is
  modelled as exact arithmetic.
* `int32_t` values are modelled as `ℤ`, `uint32_t` as `ℕ` with explicit
  `% 2 ^ 32` where the source relies on wrap-around, `uint8_t` flags as `ℕ`.
* The layer count is `ATMX_LAYERS lbits = 2 ^ lbits` (the C compile-time
  configuration `ATOMIX_LBITS`, default 8); functions that use the layer table
  take `lbits` as an explicit first parameter.
* The library's concurrency protocol is modelled sequentially (one thread at a
  time, no interference): every atomic load yields the current value and every
  compare-and-swap whose expected value was just loaded succeeds.
* Buffers are `List ℚ`; writing a sound frame into the front of a buffer keeps
  the buffer length (see `addFrame`).
* The C expression `x & ~3` on a two's-complement `int32_t` (truncation to a
  multiple of 4, rounding towards negative infinity) is `trunc4`.
* Both compile-time mixing paths are embedded: the scalar path
  (`ATOMIX_NO_SSE`) in namespace `Scalar` and the SSE path in namespace `SSE`,
  each with the source's function names.  Clipping (`ATOMIX_NO_CLIP` not
  defined) is included in both.
-/

attribute [local semireducible] Rat.add Rat.mul Rat.sub Rat.inv

namespace Atomix

/-- Pair of left/right gains, mirroring `struct atmx_f2`. -/
structure atmx_f2 where
  l : ℚ
  r : ℚ
deriving DecidableEq, Repr

instance : Inhabited atmx_f2 := ⟨⟨0, 0⟩⟩

/-- Immutable PCM sound, mirroring `struct atomix_sound`: channel count,
length in frames, and the sample data as a flat float list (interleaved for
stereo). -/
structure atomix_sound where
  cha : ℕ
  len : ℤ
  data : List ℚ
deriving DecidableEq, Repr

instance : Inhabited atomix_sound := ⟨⟨0, 0, []⟩⟩

/-- One playback layer, mirroring `struct atmx_layer`.  The C field `end` is a
Lean keyword and is rendered `end_`. -/
structure atmx_layer where
  id : ℕ
  flag : ℕ
  cursor : ℤ
  gain : atmx_f2
  snd : atomix_sound
  start : ℤ
  end_ : ℤ
  fade : ℤ
  fmax : ℤ
deriving DecidableEq, Repr

instance : Inhabited atmx_layer := ⟨⟨0, 0, 0, default, default, 0, 0, 0, 0⟩⟩

/-- The mixer, mirroring `struct atomix_mixer`.  `rem` and `data` are the
SSE-path carry buffer (up to 3 stereo frames = 6 floats of already produced
but undelivered output); the scalar path ignores them. -/
structure atomix_mixer where
  nid : ℕ
  volume : ℚ
  lays : List atmx_layer
  fade : ℤ
  rem : ℕ
  data : List ℚ
deriving DecidableEq, Repr

/-- Number of layers, `ATMX_LAYERS = 1 << ATOMIX_LBITS`. -/
def ATMX_LAYERS (lbits : ℕ) : ℕ := 2 ^ lbits

/-- Slot mask, `ATMX_LMASK = ATMX_LAYERS - 1`. -/
def ATMX_LMASK (lbits : ℕ) : ℕ := ATMX_LAYERS lbits - 1

/-- Modulus of the `uint32_t` handle counter. -/
def U32 : ℕ := 2 ^ 32

/-- Truncation to a multiple of 4: the effect of `x & ~3` on a
two's-complement `int32_t` (rounds towards negative infinity). -/
def trunc4 (x : ℤ) : ℤ := x - x.emod 4

/-- The gain/pan conversion `atmxGainf2`: clamps pan to `[-1, 1]` and returns
`(gain*(0.5 - pan/2), gain*(0.5 + pan/2))`. -/
def atmxGainf2 (gain pan : ℚ) : atmx_f2 :=
  let p := if pan < -1 then -1 else if pan > 1 then 1 else pan
  ⟨gain * (1/2 - p/2), gain * (1/2 + p/2)⟩

/-- The constructor `atomixMixerNew`: a zeroed mixer with the given volume and
default fade (negative clamped to 0, truncated to a multiple of 4). -/
def atomixMixerNew (lbits : ℕ) (vol : ℚ) (fade : ℤ) : atomix_mixer :=
  { nid := 0
    volume := vol
    lays := List.replicate (ATMX_LAYERS lbits) default
    fade := if fade < 0 then 0 else trunc4 fade
    rem := 0
    data := List.replicate 6 0 }

/-- Contents of a freshly allocated layer, as filled in by the body of the
probe loop of `atomixMixerPlayAdv` (lines 314-325 of `atomix.h`): non-atomic
fields, the fade counter (`(flag < 3) ? 0 : fmax`), gain, cursor and flag. -/
def newLayer (snd : atomix_sound) (flag : ℕ) (gain pan : ℚ) (start end_ fade : ℤ)
    (id : ℕ) : atmx_layer :=
  let fmax := if fade < 0 then 0 else trunc4 fade
  { id := id
    flag := flag
    cursor := trunc4 start
    gain := atmxGainf2 gain pan
    snd := snd
    start := trunc4 start
    end_ := trunc4 end_
    fade := if flag < 3 then 0 else fmax
    fmax := fmax }

/-- The probe loop of `atomixMixerPlayAdv`: up to `n` attempts, each reading
the slot `nid & ATMX_LMASK` and post-incrementing `nid` (a `uint32_t`).  On
the first slot whose flag is 0 (FREE) the layer is filled in; a handle value
of 0 is replaced by `ATMX_LAYERS`.  Returns (layer table, new `nid`, handle),
with handle 0 meaning failure. -/
def playAdvLoop (lbits : ℕ) (snd : atomix_sound) (flag : ℕ) (gain pan : ℚ)
    (start end_ fade : ℤ) :
    ℕ → List atmx_layer → ℕ → List atmx_layer × ℕ × ℕ
  | 0, lays, nid => (lays, nid, 0)
  | n + 1, lays, nid =>
    let id := nid
    let nid2 := (nid + 1) % U32
    let slot := id &&& ATMX_LMASK lbits
    if (lays.getD slot default).flag = 0 then
      let id2 := if id = 0 then ATMX_LAYERS lbits else id
      (lays.set slot (newLayer snd flag gain pan start end_ fade id2), nid2, id2)
    else
      playAdvLoop lbits snd flag gain pan start end_ fade n lays nid2

/-- The function `atomixMixerPlayAdv`: validates the flag and the start/end
window, then probes for a FREE layer.  Returns the updated mixer and the
handle (0 on failure). -/
def atomixMixerPlayAdv (lbits : ℕ) (m : atomix_mixer) (snd : atomix_sound)
    (flag : ℕ) (gain pan : ℚ) (start end_ fade : ℤ) : atomix_mixer × ℕ :=
  if flag < 1 ∨ flag > 4 then (m, 0)
  else if end_ - start < 4 ∨ end_ < 4 then (m, 0)
  else
    let r := playAdvLoop lbits snd flag gain pan start end_ fade
      (ATMX_LAYERS lbits) m.lays m.nid
    ({ m with lays := r.1, nid := r.2.1 }, r.2.2)

/-- The function `atomixMixerPlay`: plays the whole sound with the mixer's
default fade. -/
def atomixMixerPlay (lbits : ℕ) (m : atomix_mixer) (snd : atomix_sound)
    (flag : ℕ) (gain pan : ℚ) : atomix_mixer × ℕ :=
  atomixMixerPlayAdv lbits m snd flag gain pan 0 snd.len m.fade

/-- The function `atomixMixerSetGainPan`.  Returns the updated mixer and the
C return value as a Bool (`true` = success). -/
def atomixMixerSetGainPan (lbits : ℕ) (m : atomix_mixer) (id : ℕ)
    (gain pan : ℚ) : atomix_mixer × Bool :=
  let slot := id &&& ATMX_LMASK lbits
  let lay := m.lays.getD slot default
  if id = lay.id ∧ lay.flag > 1 then
    ({ m with lays := m.lays.set slot { lay with gain := atmxGainf2 gain pan } }, true)
  else
    (m, false)

/-- The function `atomixMixerSetCursor`: clamps the cursor to
`[start, end]` and truncates to a multiple of 4 before storing. -/
def atomixMixerSetCursor (lbits : ℕ) (m : atomix_mixer) (id : ℕ)
    (cursor : ℤ) : atomix_mixer × Bool :=
  let slot := id &&& ATMX_LMASK lbits
  let lay := m.lays.getD slot default
  if id = lay.id ∧ lay.flag > 1 then
    let c := if cursor < lay.start then lay.start
      else if cursor > lay.end_ then lay.end_ else trunc4 cursor
    ({ m with lays := m.lays.set slot { lay with cursor := c } }, true)
  else
    (m, false)

/-- The function `atomixMixerSetState`.  In the sequential model the CAS from
the just-loaded flag always succeeds. -/
def atomixMixerSetState (lbits : ℕ) (m : atomix_mixer) (id : ℕ)
    (flag : ℕ) : atomix_mixer × Bool :=
  if flag < 1 ∨ flag > 4 then (m, false)
  else
    let slot := id &&& ATMX_LMASK lbits
    let lay := m.lays.getD slot default
    if id = lay.id ∧ lay.flag > 1 then
      if lay.flag = flag then (m, true)
      else ({ m with lays := m.lays.set slot { lay with flag := flag } }, true)
    else
      (m, false)

/-- The function `atomixMixerVolume`. -/
def atomixMixerVolume (m : atomix_mixer) (vol : ℚ) : atomix_mixer :=
  { m with volume := vol }

/-- The function `atomixMixerFade`. -/
def atomixMixerFade (m : atomix_mixer) (fade : ℤ) : atomix_mixer :=
  { m with fade := if fade < 0 then 0 else trunc4 fade }

/-- The function `atomixMixerStopAll`: every layer whose flag is above STOP is
set to STOP (1). -/
def atomixMixerStopAll (m : atomix_mixer) : atomix_mixer :=
  { m with lays := m.lays.map (fun lay => if lay.flag > 1 then { lay with flag := 1 } else lay) }

/-- The function `atomixMixerHaltAll`: every layer whose flag is above HALT is
swapped to HALT (2); the CAS succeeds in the sequential model. -/
def atomixMixerHaltAll (m : atomix_mixer) : atomix_mixer :=
  { m with lays := m.lays.map (fun lay => if lay.flag > 2 then { lay with flag := 2 } else lay) }

/-- The function `atomixMixerPlayAll`: every layer on HALT is swapped to
PLAY (3). -/
def atomixMixerPlayAll (m : atomix_mixer) : atomix_mixer :=
  { m with lays := m.lays.map (fun lay => if lay.flag = 2 then { lay with flag := 3 } else lay) }

/-- Clipping of one sample, the scalar clipping expression
`(s < -1.0f) ? -1.0f : (s > 1.0f) ? 1.0f : s` (also the effect of the SSE
`min(max(s, -1), 1)` on each lane). -/
def clip1 (x : ℚ) : ℚ := if x < -1 then -1 else if x > 1 then 1 else x

/-- Mono sample fetch `lay->snd->data[cur % lay->snd->len]` (C `%` on a
non-negative cursor equals `Int.emod`). -/
def monoSample (snd : atomix_sound) (cur : ℤ) : ℚ :=
  snd.data.getD (cur.emod snd.len).toNat 0

/-- Left sample of a stereo frame: `data[(cur % len) << 1]`. -/
def stereoSampleL (snd : atomix_sound) (cur : ℤ) : ℚ :=
  snd.data.getD (2 * (cur.emod snd.len)).toNat 0

/-- Right sample of a stereo frame: `data[((cur % len) << 1) + 1]`. -/
def stereoSampleR (snd : atomix_sound) (cur : ℤ) : ℚ :=
  snd.data.getD (2 * (cur.emod snd.len) + 1).toNat 0

/-- Accumulates one stereo frame (`buff[i] += dl; buff[i+1] += dr`) into the
first two cells of the buffer, keeping its length. -/
def addFrame (buff : List ℚ) (dl dr : ℚ) : List ℚ :=
  List.zipWith (· + ·) buff [dl, dr] ++ buff.drop 2

namespace Scalar

/-- Fade-out inner loop of the scalar `atmxMixFadeMono` (the branch with
enough room to fade out fully): per frame, quit once fully faded, otherwise
mix `sam * (fade/fmax) * g` when the cursor is inside the sound, then
decrement the fade and advance the cursor.  The first argument of the
recursion is the remaining frame count of the output buffer. -/
def fadeMonoOut (snd : atomix_sound) (fmax : ℤ) (gl gr : ℚ) :
    ℕ → ℤ → ℤ → List ℚ → ℤ × ℤ × List ℚ
  | 0, fade, cur, buff => (fade, cur, buff)
  | n + 1, fade, cur, buff =>
    if fade = 0 then (fade, cur, buff)
    else
      let buff2 :=
        if 0 ≤ cur then
          let f : ℚ := (fade : ℚ) / (fmax : ℚ)
          let sam := monoSample snd cur
          addFrame buff (sam * f * gl) (sam * f * gr)
        else buff
      let r := fadeMonoOut snd fmax gl gr n (fade - 1) (cur + 1) (buff2.drop 2)
      (r.1, r.2.1, buff2.take 2 ++ r.2.2)

/-- Play-to-end inner loop of the scalar `atmxMixFadeMono` (the branch where
the sound is too close to its end to fade): plays at full gain until the
cursor reaches `end`. -/
def playToEndMono (snd : atomix_sound) (end_ : ℤ) (gl gr : ℚ) :
    ℕ → ℤ → List ℚ → ℤ × List ℚ
  | 0, cur, buff => (cur, buff)
  | n + 1, cur, buff =>
    if cur = end_ then (cur, buff)
    else
      let buff2 :=
        if 0 ≤ cur then
          let sam := monoSample snd cur
          addFrame buff (sam * gl) (sam * gr)
        else buff
      let r := playToEndMono snd end_ gl gr n (cur + 1) (buff2.drop 2)
      (r.1, buff2.take 2 ++ r.2)

/-- Fade-out inner loop of the scalar `atmxMixFadeStereo`. -/
def fadeStereoOut (snd : atomix_sound) (fmax : ℤ) (gl gr : ℚ) :
    ℕ → ℤ → ℤ → List ℚ → ℤ × ℤ × List ℚ
  | 0, fade, cur, buff => (fade, cur, buff)
  | n + 1, fade, cur, buff =>
    if fade = 0 then (fade, cur, buff)
    else
      let buff2 :=
        if 0 ≤ cur then
          let f : ℚ := (fade : ℚ) / (fmax : ℚ)
          addFrame buff (stereoSampleL snd cur * f * gl) (stereoSampleR snd cur * f * gr)
        else buff
      let r := fadeStereoOut snd fmax gl gr n (fade - 1) (cur + 1) (buff2.drop 2)
      (r.1, r.2.1, buff2.take 2 ++ r.2.2)

/-- Play-to-end inner loop of the scalar `atmxMixFadeStereo`. -/
def playToEndStereo (snd : atomix_sound) (end_ : ℤ) (gl gr : ℚ) :
    ℕ → ℤ → List ℚ → ℤ × List ℚ
  | 0, cur, buff => (cur, buff)
  | n + 1, cur, buff =>
    if cur = end_ then (cur, buff)
    else
      let buff2 :=
        if 0 ≤ cur then
          addFrame buff (stereoSampleL snd cur * gl) (stereoSampleR snd cur * gr)
        else buff
      let r := playToEndStereo snd end_ gl gr n (cur + 1) (buff2.drop 2)
      (r.1, buff2.take 2 ++ r.2)

/-- Scalar `atmxMixFadeMono`: chooses between fading out and playing to the
end; the final CAS on the cursor succeeds in the sequential model, so the
layer's cursor and fade are simply updated.  Returns (layer, new cursor,
buffer). -/
def atmxMixFadeMono (lay : atmx_layer) (cur : ℤ) (g : atmx_f2)
    (buff : List ℚ) (fnum : ℕ) : atmx_layer × ℤ × List ℚ :=
  if lay.fade < lay.end_ - cur then
    let r := fadeMonoOut lay.snd lay.fmax g.l g.r fnum lay.fade cur buff
    ({ lay with fade := r.1, cursor := r.2.1 }, r.2.1, r.2.2)
  else
    let r := playToEndMono lay.snd lay.end_ g.l g.r fnum cur buff
    ({ lay with cursor := r.1 }, r.1, r.2)

/-- Scalar `atmxMixFadeStereo`. -/
def atmxMixFadeStereo (lay : atmx_layer) (cur : ℤ) (g : atmx_f2)
    (buff : List ℚ) (fnum : ℕ) : atmx_layer × ℤ × List ℚ :=
  if lay.fade < lay.end_ - cur then
    let r := fadeStereoOut lay.snd lay.fmax g.l g.r fnum lay.fade cur buff
    ({ lay with fade := r.1, cursor := r.2.1 }, r.2.1, r.2.2)
  else
    let r := playToEndStereo lay.snd lay.end_ g.l g.r fnum cur buff
    ({ lay with cursor := r.1 }, r.1, r.2)

/-- Fade-in inner loop of the scalar `atmxMixPlayMono`: on reaching `end`,
breaks unless looping, in which case the cursor wraps to `start`; mixes
`sam * (fade/fmax) * g` while the cursor is inside the sound; increments the
fade until it saturates at `fmax`. -/
def playMonoFadeIn (snd : atomix_sound) (start end_ fmax : ℤ) (loop : Bool)
    (gl gr : ℚ) : ℕ → ℤ → ℤ → List ℚ → ℤ × ℤ × List ℚ
  | 0, fade, cur, buff => (fade, cur, buff)
  | n + 1, fade, cur, buff =>
    if cur = end_ ∧ loop = false then (fade, cur, buff)
    else
      let cur2 := if cur = end_ then start else cur
      let buff2 :=
        if 0 ≤ cur2 then
          let f : ℚ := (fade : ℚ) / (fmax : ℚ)
          let sam := monoSample snd cur2
          addFrame buff (sam * f * gl) (sam * f * gr)
        else buff
      let fade2 := if fade < fmax then fade + 1 else fade
      let r := playMonoFadeIn snd start end_ fmax loop gl gr n fade2 (cur2 + 1) (buff2.drop 2)
      (r.1, r.2.1, buff2.take 2 ++ r.2.2)

/-- Regular-playback inner loop of the scalar `atmxMixPlayMono`. -/
def playMonoReg (snd : atomix_sound) (start end_ : ℤ) (loop : Bool)
    (gl gr : ℚ) : ℕ → ℤ → List ℚ → ℤ × List ℚ
  | 0, cur, buff => (cur, buff)
  | n + 1, cur, buff =>
    if cur = end_ ∧ loop = false then (cur, buff)
    else
      let cur2 := if cur = end_ then start else cur
      let buff2 :=
        if 0 ≤ cur2 then
          let sam := monoSample snd cur2
          addFrame buff (sam * gl) (sam * gr)
        else buff
      let r := playMonoReg snd start end_ loop gl gr n (cur2 + 1) (buff2.drop 2)
      (r.1, buff2.take 2 ++ r.2)

/-- Fade-in inner loop of the scalar `atmxMixPlayStereo`. -/
def playStereoFadeIn (snd : atomix_sound) (start end_ fmax : ℤ) (loop : Bool)
    (gl gr : ℚ) : ℕ → ℤ → ℤ → List ℚ → ℤ × ℤ × List ℚ
  | 0, fade, cur, buff => (fade, cur, buff)
  | n + 1, fade, cur, buff =>
    if cur = end_ ∧ loop = false then (fade, cur, buff)
    else
      let cur2 := if cur = end_ then start else cur
      let buff2 :=
        if 0 ≤ cur2 then
          let f : ℚ := (fade : ℚ) / (fmax : ℚ)
          addFrame buff (stereoSampleL snd cur2 * f * gl) (stereoSampleR snd cur2 * f * gr)
        else buff
      let fade2 := if fade < fmax then fade + 1 else fade
      let r := playStereoFadeIn snd start end_ fmax loop gl gr n fade2 (cur2 + 1) (buff2.drop 2)
      (r.1, r.2.1, buff2.take 2 ++ r.2.2)

/-- Regular-playback inner loop of the scalar `atmxMixPlayStereo`. -/
def playStereoReg (snd : atomix_sound) (start end_ : ℤ) (loop : Bool)
    (gl gr : ℚ) : ℕ → ℤ → List ℚ → ℤ × List ℚ
  | 0, cur, buff => (cur, buff)
  | n + 1, cur, buff =>
    if cur = end_ ∧ loop = false then (cur, buff)
    else
      let cur2 := if cur = end_ then start else cur
      let buff2 :=
        if 0 ≤ cur2 then
          addFrame buff (stereoSampleL snd cur2 * gl) (stereoSampleR snd cur2 * gr)
        else buff
      let r := playStereoReg snd start end_ loop gl gr n (cur2 + 1) (buff2.drop 2)
      (r.1, buff2.take 2 ++ r.2)

/-- Scalar `atmxMixPlayMono`: fades in while `fade < fmax`, otherwise regular
playback; the cursor CAS succeeds in the sequential model. -/
def atmxMixPlayMono (lay : atmx_layer) (loop : Bool) (cur : ℤ) (g : atmx_f2)
    (buff : List ℚ) (fnum : ℕ) : atmx_layer × ℤ × List ℚ :=
  if lay.fade < lay.fmax then
    let r := playMonoFadeIn lay.snd lay.start lay.end_ lay.fmax loop g.l g.r fnum lay.fade cur buff
    ({ lay with fade := r.1, cursor := r.2.1 }, r.2.1, r.2.2)
  else
    let r := playMonoReg lay.snd lay.start lay.end_ loop g.l g.r fnum cur buff
    ({ lay with cursor := r.1 }, r.1, r.2)

/-- Scalar `atmxMixPlayStereo`. -/
def atmxMixPlayStereo (lay : atmx_layer) (loop : Bool) (cur : ℤ) (g : atmx_f2)
    (buff : List ℚ) (fnum : ℕ) : atmx_layer × ℤ × List ℚ :=
  if lay.fade < lay.fmax then
    let r := playStereoFadeIn lay.snd lay.start lay.end_ lay.fmax loop g.l g.r fnum lay.fade cur buff
    ({ lay with fade := r.1, cursor := r.2.1 }, r.2.1, r.2.2)
  else
    let r := playStereoReg lay.snd lay.start lay.end_ loop g.l g.r fnum cur buff
    ({ lay with cursor := r.1 }, r.1, r.2)

/-- Scalar `atmxMixLayer`: skips FREE layers, loads cursor and gain
(premultiplied by the volume), dispatches to the fade kernels for STOP/HALT
(only when `fade > 0` and the cursor has not reached `end`) and to the play
kernels for PLAY/LOOP, then performs the end-of-sound flag clears: a STOP
layer that is fully faded or at its end is freed, a PLAY layer whose cursor
reached `end` is freed by a CAS. -/
def atmxMixLayer (lay : atmx_layer) (vol : ℚ) (buff : List ℚ)
    (fnum : ℕ) : atmx_layer × List ℚ :=
  if lay.flag = 0 then (lay, buff)
  else
    let cur := lay.cursor
    let g : atmx_f2 := ⟨lay.gain.l * vol, lay.gain.r * vol⟩
    if lay.flag < 3 then
      let r :=
        if 0 < lay.fade ∧ cur < lay.end_ then
          if lay.snd.cha = 1 then atmxMixFadeMono lay cur g buff fnum
          else atmxMixFadeStereo lay cur g buff fnum
        else (lay, cur, buff)
      if lay.flag = 1 ∧ (r.1.fade = 0 ∨ r.2.1 = lay.end_) then
        ({ r.1 with flag := 0 }, r.2.2)
      else (r.1, r.2.2)
    else
      let r :=
        if lay.snd.cha = 1 then atmxMixPlayMono lay (decide (lay.flag = 4)) cur g buff fnum
        else atmxMixPlayStereo lay (decide (lay.flag = 4)) cur g buff fnum
      if lay.flag = 3 ∧ r.2.1 = lay.end_ then
        ({ r.1 with flag := 0 }, r.2.2)
      else (r.1, r.2.2)

/-- The per-layer loop of the scalar `atomixMixerMix`, threading the output
buffer through every layer in order. -/
def mixLays (vol : ℚ) (fnum : ℕ) : List atmx_layer → List ℚ → List atmx_layer × List ℚ
  | [], buff => ([], buff)
  | lay :: rest, buff =>
    let r := atmxMixLayer lay vol buff fnum
    let r2 := mixLays vol fnum rest r.2
    (r.1 :: r2.1, r2.2)

/-- The scalar (`ATOMIX_NO_SSE`) `atomixMixerMix`: zeroes `2*fnum` floats,
mixes every layer into them, clips, and returns `fnum`.  The result is
(updated mixer, output floats, return value). -/
def atomixMixerMix (m : atomix_mixer) (fnum : ℕ) : atomix_mixer × List ℚ × ℕ :=
  let buff := List.replicate (2 * fnum) (0 : ℚ)
  let r := mixLays m.volume fnum m.lays buff
  ({ m with lays := r.1 }, r.2.map clip1, fnum)

end Scalar

namespace SSE

/-- Accumulates one increment block into the front of the buffer
(elementwise `+=` of two `__m128` stores), keeping the buffer length. -/
def addBlock (buff inc : List ℚ) : List ℚ :=
  List.zipWith (· + ·) buff inc ++ buff.drop inc.length

/-- The 8-float contribution of one SSE iteration of a mono kernel: the 4
samples `sam = data[(cur % len) >> 2]` (float base `4*((cur % len) >> 2)`),
duplicated to both channels by `unpacklo`/`unpackhi` and multiplied by the
left/right lane multipliers `ml`/`mr`. -/
def monoInc (snd : atomix_sound) (cur : ℤ) (ml mr : ℚ) : List ℚ :=
  let base := 4 * ((cur.emod snd.len).toNat / 4)
  let s0 := snd.data.getD base 0
  let s1 := snd.data.getD (base + 1) 0
  let s2 := snd.data.getD (base + 2) 0
  let s3 := snd.data.getD (base + 3) 0
  [s0 * ml, s0 * mr, s1 * ml, s1 * mr, s2 * ml, s2 * mr, s3 * ml, s3 * mr]

/-- The 8-float contribution of one SSE iteration of a stereo kernel: the 8
interleaved floats `data[off]` and `data[off+1]` with `off = (cur % len) >> 1`
(float base `4*((cur % len) >> 1)`), multiplied by the alternating lane
multipliers. -/
def stereoInc (snd : atomix_sound) (cur : ℤ) (ml mr : ℚ) : List ℚ :=
  let base := 4 * ((cur.emod snd.len).toNat / 2)
  [snd.data.getD base 0 * ml, snd.data.getD (base + 1) 0 * mr,
   snd.data.getD (base + 2) 0 * ml, snd.data.getD (base + 3) 0 * mr,
   snd.data.getD (base + 4) 0 * ml, snd.data.getD (base + 5) 0 * mr,
   snd.data.getD (base + 6) 0 * ml, snd.data.getD (base + 7) 0 * mr]

/-- Fade-out inner loop of the SSE `atmxMixFadeMono`: 4 frames (8 output
floats) per iteration, fade decremented by 4, cursor advanced by 4. -/
def fadeMonoOut (snd : atomix_sound) (fmax : ℤ) (gl gr : ℚ) :
    ℕ → ℤ → ℤ → List ℚ → ℤ × ℤ × List ℚ
  | 0, fade, cur, buff => (fade, cur, buff)
  | n + 1, fade, cur, buff =>
    if fade = 0 then (fade, cur, buff)
    else
      let buff2 :=
        if 0 ≤ cur then
          let f : ℚ := (fade : ℚ) / (fmax : ℚ)
          addBlock buff (monoInc snd cur (f * gl) (f * gr))
        else buff
      let r := fadeMonoOut snd fmax gl gr n (fade - 4) (cur + 4) (buff2.drop 8)
      (r.1, r.2.1, buff2.take 8 ++ r.2.2)

/-- Play-to-end inner loop of the SSE `atmxMixFadeMono` (full gain). -/
def playToEndMono (snd : atomix_sound) (end_ : ℤ) (gl gr : ℚ) :
    ℕ → ℤ → List ℚ → ℤ × List ℚ
  | 0, cur, buff => (cur, buff)
  | n + 1, cur, buff =>
    if cur = end_ then (cur, buff)
    else
      let buff2 := if 0 ≤ cur then addBlock buff (monoInc snd cur gl gr) else buff
      let r := playToEndMono snd end_ gl gr n (cur + 4) (buff2.drop 8)
      (r.1, buff2.take 8 ++ r.2)

/-- Fade-out inner loop of the SSE `atmxMixFadeStereo`. -/
def fadeStereoOut (snd : atomix_sound) (fmax : ℤ) (gl gr : ℚ) :
    ℕ → ℤ → ℤ → List ℚ → ℤ × ℤ × List ℚ
  | 0, fade, cur, buff => (fade, cur, buff)
  | n + 1, fade, cur, buff =>
    if fade = 0 then (fade, cur, buff)
    else
      let buff2 :=
        if 0 ≤ cur then
          let f : ℚ := (fade : ℚ) / (fmax : ℚ)
          addBlock buff (stereoInc snd cur (f * gl) (f * gr))
        else buff
      let r := fadeStereoOut snd fmax gl gr n (fade - 4) (cur + 4) (buff2.drop 8)
      (r.1, r.2.1, buff2.take 8 ++ r.2.2)

/-- Play-to-end inner loop of the SSE `atmxMixFadeStereo`. -/
def playToEndStereo (snd : atomix_sound) (end_ : ℤ) (gl gr : ℚ) :
    ℕ → ℤ → List ℚ → ℤ × List ℚ
  | 0, cur, buff => (cur, buff)
  | n + 1, cur, buff =>
    if cur = end_ then (cur, buff)
    else
      let buff2 := if 0 ≤ cur then addBlock buff (stereoInc snd cur gl gr) else buff
      let r := playToEndStereo snd end_ gl gr n (cur + 4) (buff2.drop 8)
      (r.1, buff2.take 8 ++ r.2)

/-- The SSE `atmxMixFadeMono`; `asize` is the accumulator size in `__m128`
units and the loop runs `(asize + 1) / 2` iterations (`i += 2`). -/
def atmxMixFadeMono (lay : atmx_layer) (cur : ℤ) (g : atmx_f2)
    (buff : List ℚ) (asize : ℕ) : atmx_layer × ℤ × List ℚ :=
  if lay.fade < lay.end_ - cur then
    let r := fadeMonoOut lay.snd lay.fmax g.l g.r ((asize + 1) / 2) lay.fade cur buff
    ({ lay with fade := r.1, cursor := r.2.1 }, r.2.1, r.2.2)
  else
    let r := playToEndMono lay.snd lay.end_ g.l g.r ((asize + 1) / 2) cur buff
    ({ lay with cursor := r.1 }, r.1, r.2)

/-- The SSE `atmxMixFadeStereo`. -/
def atmxMixFadeStereo (lay : atmx_layer) (cur : ℤ) (g : atmx_f2)
    (buff : List ℚ) (asize : ℕ) : atmx_layer × ℤ × List ℚ :=
  if lay.fade < lay.end_ - cur then
    let r := fadeStereoOut lay.snd lay.fmax g.l g.r ((asize + 1) / 2) lay.fade cur buff
    ({ lay with fade := r.1, cursor := r.2.1 }, r.2.1, r.2.2)
  else
    let r := playToEndStereo lay.snd lay.end_ g.l g.r ((asize + 1) / 2) cur buff
    ({ lay with cursor := r.1 }, r.1, r.2)

/-- Fade-in inner loop of the SSE `atmxMixPlayMono`: wraps to `start` at
`end` when looping, fade incremented by 4 until saturation, cursor advanced
by 4. -/
def playMonoFadeIn (snd : atomix_sound) (start end_ fmax : ℤ) (loop : Bool)
    (gl gr : ℚ) : ℕ → ℤ → ℤ → List ℚ → ℤ × ℤ × List ℚ
  | 0, fade, cur, buff => (fade, cur, buff)
  | n + 1, fade, cur, buff =>
    if cur = end_ ∧ loop = false then (fade, cur, buff)
    else
      let cur2 := if cur = end_ then start else cur
      let buff2 :=
        if 0 ≤ cur2 then
          let f : ℚ := (fade : ℚ) / (fmax : ℚ)
          addBlock buff (monoInc snd cur2 (f * gl) (f * gr))
        else buff
      let fade2 := if fade < fmax then fade + 4 else fade
      let r := playMonoFadeIn snd start end_ fmax loop gl gr n fade2 (cur2 + 4) (buff2.drop 8)
      (r.1, r.2.1, buff2.take 8 ++ r.2.2)

/-- Regular-playback inner loop of the SSE `atmxMixPlayMono`. -/
def playMonoReg (snd : atomix_sound) (start end_ : ℤ) (loop : Bool)
    (gl gr : ℚ) : ℕ → ℤ → List ℚ → ℤ × List ℚ
  | 0, cur, buff => (cur, buff)
  | n + 1, cur, buff =>
    if cur = end_ ∧ loop = false then (cur, buff)
    else
      let cur2 := if cur = end_ then start else cur
      let buff2 := if 0 ≤ cur2 then addBlock buff (monoInc snd cur2 gl gr) else buff
      let r := playMonoReg snd start end_ loop gl gr n (cur2 + 4) (buff2.drop 8)
      (r.1, buff2.take 8 ++ r.2)

/-- Fade-in inner loop of the SSE `atmxMixPlayStereo`. -/
def playStereoFadeIn (snd : atomix_sound) (start end_ fmax : ℤ) (loop : Bool)
    (gl gr : ℚ) : ℕ → ℤ → ℤ → List ℚ → ℤ × ℤ × List ℚ
  | 0, fade, cur, buff => (fade, cur, buff)
  | n + 1, fade, cur, buff =>
    if cur = end_ ∧ loop = false then (fade, cur, buff)
    else
      let cur2 := if cur = end_ then start else cur
      let buff2 :=
        if 0 ≤ cur2 then
          let f : ℚ := (fade : ℚ) / (fmax : ℚ)
          addBlock buff (stereoInc snd cur2 (f * gl) (f * gr))
        else buff
      let fade2 := if fade < fmax then fade + 4 else fade
      let r := playStereoFadeIn snd start end_ fmax loop gl gr n fade2 (cur2 + 4) (buff2.drop 8)
      (r.1, r.2.1, buff2.take 8 ++ r.2.2)

/-- Regular-playback inner loop of the SSE `atmxMixPlayStereo`. -/
def playStereoReg (snd : atomix_sound) (start end_ : ℤ) (loop : Bool)
    (gl gr : ℚ) : ℕ → ℤ → List ℚ → ℤ × List ℚ
  | 0, cur, buff => (cur, buff)
  | n + 1, cur, buff =>
    if cur = end_ ∧ loop = false then (cur, buff)
    else
      let cur2 := if cur = end_ then start else cur
      let buff2 := if 0 ≤ cur2 then addBlock buff (stereoInc snd cur2 gl gr) else buff
      let r := playStereoReg snd start end_ loop gl gr n (cur2 + 4) (buff2.drop 8)
      (r.1, buff2.take 8 ++ r.2)

/-- The SSE `atmxMixPlayMono`. -/
def atmxMixPlayMono (lay : atmx_layer) (loop : Bool) (cur : ℤ) (g : atmx_f2)
    (buff : List ℚ) (asize : ℕ) : atmx_layer × ℤ × List ℚ :=
  if lay.fade < lay.fmax then
    let r := playMonoFadeIn lay.snd lay.start lay.end_ lay.fmax loop g.l g.r ((asize + 1) / 2) lay.fade cur buff
    ({ lay with fade := r.1, cursor := r.2.1 }, r.2.1, r.2.2)
  else
    let r := playMonoReg lay.snd lay.start lay.end_ loop g.l g.r ((asize + 1) / 2) cur buff
    ({ lay with cursor := r.1 }, r.1, r.2)

/-- The SSE `atmxMixPlayStereo`. -/
def atmxMixPlayStereo (lay : atmx_layer) (loop : Bool) (cur : ℤ) (g : atmx_f2)
    (buff : List ℚ) (asize : ℕ) : atmx_layer × ℤ × List ℚ :=
  if lay.fade < lay.fmax then
    let r := playStereoFadeIn lay.snd lay.start lay.end_ lay.fmax loop g.l g.r ((asize + 1) / 2) lay.fade cur buff
    ({ lay with fade := r.1, cursor := r.2.1 }, r.2.1, r.2.2)
  else
    let r := playStereoReg lay.snd lay.start lay.end_ loop g.l g.r ((asize + 1) / 2) cur buff
    ({ lay with cursor := r.1 }, r.1, r.2)

/-- The SSE `atmxMixLayer`: gain lanes are `gmul = (g.l, g.r, g.l, g.r) *
vol`; the dispatch and the flag clears match the scalar path. -/
def atmxMixLayer (lay : atmx_layer) (vol : ℚ) (buff : List ℚ)
    (asize : ℕ) : atmx_layer × List ℚ :=
  if lay.flag = 0 then (lay, buff)
  else
    let cur := lay.cursor
    let g : atmx_f2 := ⟨lay.gain.l * vol, lay.gain.r * vol⟩
    if lay.flag < 3 then
      let r :=
        if 0 < lay.fade ∧ cur < lay.end_ then
          if lay.snd.cha = 1 then atmxMixFadeMono lay cur g buff asize
          else atmxMixFadeStereo lay cur g buff asize
        else (lay, cur, buff)
      if lay.flag = 1 ∧ (r.1.fade = 0 ∨ r.2.1 = lay.end_) then
        ({ r.1 with flag := 0 }, r.2.2)
      else (r.1, r.2.2)
    else
      let r :=
        if lay.snd.cha = 1 then atmxMixPlayMono lay (decide (lay.flag = 4)) cur g buff asize
        else atmxMixPlayStereo lay (decide (lay.flag = 4)) cur g buff asize
      if lay.flag = 3 ∧ r.2.1 = lay.end_ then
        ({ r.1 with flag := 0 }, r.2.2)
      else (r.1, r.2.2)

/-- The per-layer loop of the SSE `atomixMixerMix`. -/
def mixLays (vol : ℚ) (asize : ℕ) : List atmx_layer → List ℚ → List atmx_layer × List ℚ
  | [], buff => ([], buff)
  | lay :: rest, buff =>
    let r := atmxMixLayer lay vol buff asize
    let r2 := mixLays vol asize rest r.2
    (r.1 :: r2.1, r2.2)

/-- Writing a `memcpy`/`memmove` into the front of the carry buffer at float
granularity: the copied floats replace the buffer's prefix. -/
def writeCarry (dst src : List ℚ) : List ℚ := src ++ dst.drop src.length

/-- The SSE `atomixMixerMix` at float granularity.  If carry frames exist and
satisfy the whole request (`fnum <= rem`, the rare case), `fnum` frames are
delivered from the carry buffer; the surviving carry frames are shifted down
by a `memmove` of `(3 - fnum)*2` floats.  Otherwise any carry frames are
delivered first, `asize = ((rnum + 3) & ~3) >> 1` `__m128`s of accumulator
are zeroed, every layer is mixed in, the accumulator is clipped to
`[-1, 1]`, `rnum` frames are copied out, and `rem = asize*2 - rnum` leftover
frames should be saved into the carry buffer — but the C source passes
`mix->rem` as the BYTE count of that `memcpy` (line 282 of `atomix.h`), so
only `rem / 4 = 0` whole floats are saved (`rem ≤ 3`); the float-granularity
model therefore leaves the carry data unchanged there.  The result is
(updated mixer, output floats, return value). -/
def atomixMixerMix (m : atomix_mixer) (fnum : ℕ) : atomix_mixer × List ℚ × ℕ :=
  if m.rem ≠ 0 ∧ ¬ (fnum > m.rem) then
    let out := m.data.take (fnum * 2)
    let rem2 := m.rem - fnum
    let data2 :=
      if rem2 ≠ 0 then writeCarry m.data ((m.data.drop (fnum * 2)).take ((3 - fnum) * 2))
      else m.data
    ({ m with rem := rem2, data := data2 }, out, fnum)
  else
    let pre := if m.rem ≠ 0 then m.data.take (m.rem * 2) else []
    let rnum := fnum - m.rem
    let asize := ((rnum + 3) / 4) * 2
    let align0 := List.replicate (asize * 4) (0 : ℚ)
    let r := mixLays m.volume asize m.lays align0
    let align2 := r.2.map clip1
    let out2 := align2.take (rnum * 2)
    let rem2 := asize * 2 - rnum
    let data2 :=
      if rem2 ≠ 0 then writeCarry m.data ((align2.drop (rnum * 2)).take (rem2 / 4))
      else m.data
    ({ m with lays := r.1, rem := rem2, data := data2 }, pre ++ out2, fnum)

end SSE

/-- State of the SSE carry buffer at byte granularity: the frame count
`mix->rem` and the 24 bytes of `mix->data` (6 floats of 4 bytes each).
Bytes are abstract values (`ℕ`). -/
structure carry_state where
  rem : ℕ
  data : List ℕ
deriving DecidableEq, Repr

/-- Byte-granularity `memcpy`/`memmove` into the front of the carry buffer. -/
def writeBytes (dst src : List ℕ) : List ℕ := src ++ dst.drop src.length

/-- Byte-granularity model of the carry plumbing of the SSE
`atomixMixerMix`.  The mixing loop and the clipping pass are abstracted:
`mixed` is the byte content of the aligned accumulator after both (16 bytes
per `__m128`, 8 bytes per stereo frame, 4 bytes per float), so the carry
handling can be stated for an arbitrary produced stream.  All sizes follow
the C source literally: the carry delivery copies `rem*2*sizeof(float) =
rem*8` bytes, the rare-case `memmove` copies `(3 - fnum)*2*sizeof(float)`
bytes from byte offset `fnum*8`, the main output copies `rnum*8` bytes, and
the carry save copies `mix->rem` bytes (the byte count the C source actually
passes on line 282) from byte offset `rnum*8`. -/
def mixBytes (st : carry_state) (fnum : ℕ) (mixed : List ℕ) : carry_state × List ℕ :=
  if st.rem ≠ 0 ∧ ¬ (fnum > st.rem) then
    let out := st.data.take (fnum * 8)
    let rem2 := st.rem - fnum
    let data2 :=
      if rem2 ≠ 0 then writeBytes st.data ((st.data.drop (fnum * 8)).take ((3 - fnum) * 8))
      else st.data
    (⟨rem2, data2⟩, out)
  else
    let pre := if st.rem ≠ 0 then st.data.take (st.rem * 8) else []
    let rnum := fnum - st.rem
    let asize := ((rnum + 3) / 4) * 2
    let out2 := mixed.take (rnum * 8)
    let rem2 := asize * 2 - rnum
    let data2 :=
      if rem2 ≠ 0 then writeBytes st.data ((mixed.drop (rnum * 8)).take rem2)
      else st.data
    (⟨rem2, data2⟩, pre ++ out2)

/-- Constant-1 eight-frame mono sound used by the concrete test scenarios. -/
def oneSound : atomix_sound := ⟨1, 8, List.replicate 8 1⟩

/-! Helper lemmas. -/

theorem getD_set_self {α : Type} (l : List α) (i : ℕ) (a d : α) (h : i < l.length) :
    (l.set i a).getD i d = a := by
  rw [List.getD_eq_getElem?_getD, List.getElem?_set_self h]
  rfl

theorem slot_le_mask (lbits id : ℕ) : id &&& ATMX_LMASK lbits < ATMX_LAYERS lbits := by
  have h1 : id &&& ATMX_LMASK lbits ≤ ATMX_LMASK lbits := Nat.and_le_right
  have h2 : 0 < ATMX_LAYERS lbits := Nat.pos_pow_of_pos lbits (by norm_num)
  have h3 : ATMX_LMASK lbits = ATMX_LAYERS lbits - 1 := rfl
  omega

theorem and_mask_eq_mod (lbits id : ℕ) :
    id &&& ATMX_LMASK lbits = id % ATMX_LAYERS lbits := by
  unfold ATMX_LMASK ATMX_LAYERS
  exact Nat.and_pow_two_sub_one_eq_mod id lbits

/-! Claims C9, C8 and C7. -/

/-- C9: after clamping the pan to `[-1, 1]`, `atmxGainf2 g p` equals
`(g*(1/2 - p/2), g*(1/2 + p/2))`; consequently for `p ∈ [-1, 1]` the two
gains sum to `g`, full left pan gives `(g, 0)`, full right pan gives
`(0, g)`, and centre pan gives `(g/2, g/2)`. -/
theorem atmxGainf2_eq (g p : ℚ) (h1 : -1 ≤ p) (h2 : p ≤ 1) :
    atmxGainf2 g p = ⟨g * (1/2 - p/2), g * (1/2 + p/2)⟩ := by
  simp only [atmxGainf2, if_neg (not_lt.mpr h1), if_neg (not_lt.mpr h2)]

theorem claim_C9 (g p : ℚ) (h1 : -1 ≤ p) (h2 : p ≤ 1) :
    (atmxGainf2 g p).l + (atmxGainf2 g p).r = g ∧
    atmxGainf2 g (-1) = ⟨g, 0⟩ ∧
    atmxGainf2 g 1 = ⟨0, g⟩ ∧
    atmxGainf2 g 0 = ⟨g / 2, g / 2⟩ ∧
    atmxGainf2 g p = ⟨g * (1/2 - p/2), g * (1/2 + p/2)⟩ := by
  refine ⟨?_, ?_, ?_, ?_, atmxGainf2_eq g p h1 h2⟩
  · rw [atmxGainf2_eq g p h1 h2]
    show g * (1/2 - p/2) + g * (1/2 + p/2) = g
    ring
  · rw [atmxGainf2_eq g (-1) (by norm_num) (by norm_num)]
    simp only [atmx_f2.mk.injEq]
    constructor <;> ring
  · rw [atmxGainf2_eq g 1 (by norm_num) (by norm_num)]
    simp only [atmx_f2.mk.injEq]
    constructor <;> ring
  · rw [atmxGainf2_eq g 0 (by norm_num) (by norm_num)]
    simp only [atmx_f2.mk.injEq]
    constructor <;> ring

/-- Witness for C9 at `g = 3`, `p = 1/2`. -/
theorem claim_C9_witness :
    ((-1 : ℚ) ≤ 1/2 ∧ (1/2 : ℚ) ≤ 1) ∧
    ((atmxGainf2 3 (1/2)).l + (atmxGainf2 3 (1/2)).r = 3 ∧
     atmxGainf2 3 (-1) = ⟨3, 0⟩ ∧
     atmxGainf2 3 1 = ⟨0, 3⟩ ∧
     atmxGainf2 3 0 = ⟨3 / 2, 3 / 2⟩ ∧
     atmxGainf2 3 (1/2) = ⟨3 * (1/2 - (1/2)/2), 3 * (1/2 + (1/2)/2)⟩) :=
  ⟨⟨by norm_num, by norm_num⟩, claim_C9 3 (1/2) (by norm_num) (by norm_num)⟩

/-- C8: with an out-of-range state or a start/end window failing
`end - start >= 4` or `end >= 4`, `atomixMixerPlayAdv` returns handle 0 and
the mixer completely unchanged (the checks precede the slot probe, so no
layer field and not even `nid` is touched). -/
theorem claim_C8 (lbits : ℕ) (m : atomix_mixer) (snd : atomix_sound) (flag : ℕ)
    (gain pan : ℚ) (start end_ fade : ℤ)
    (hbad : flag < 1 ∨ 4 < flag ∨ end_ - start < 4 ∨ end_ < 4) :
    atomixMixerPlayAdv lbits m snd flag gain pan start end_ fade = (m, 0) := by
  unfold atomixMixerPlayAdv
  by_cases hf : flag < 1 ∨ flag > 4
  · rw [if_pos hf]
  · rw [if_neg hf]
    have hse : end_ - start < 4 ∨ end_ < 4 := by
      rcases hbad with h | h | h | h
      · exact absurd (Or.inl h) hf
      · exact absurd (Or.inr h) hf
      · exact Or.inl h
      · exact Or.inr h
    rw [if_pos hse]

/-- Witness for C8: state 0 is rejected on a fresh 4-layer mixer. -/
theorem claim_C8_witness :
    ((0:ℕ) < 1 ∨ 4 < (0:ℕ) ∨ (8:ℤ) - 0 < 4 ∨ (8:ℤ) < 4) ∧
    atomixMixerPlayAdv 2 (atomixMixerNew 2 1 0) default 0 1 0 0 8 0 =
      (atomixMixerNew 2 1 0, 0) :=
  ⟨Or.inl (by norm_num),
   claim_C8 2 (atomixMixerNew 2 1 0) default 0 1 0 0 8 0 (Or.inl (by norm_num))⟩

theorem stopAll_flag_le (m : atomix_mixer) (slot : ℕ) :
    ((atomixMixerStopAll m).lays.getD slot default).flag ≤ 1 := by
  rw [List.getD_eq_getElem?_getD]
  cases hq : (atomixMixerStopAll m).lays[slot]? with
  | none => simp; decide
  | some lay =>
    have hmem : lay ∈ (atomixMixerStopAll m).lays := List.getElem?_mem hq
    simp only [atomixMixerStopAll, List.mem_map] at hmem
    obtain ⟨a, -, rfl⟩ := hmem
    by_cases ha : a.flag > 1
    all_goals simp [hq, ha]
    all_goals omega

/-- C7: after `atomixMixerStopAll` every layer's flag is FREE (0) or
STOP (1), and every subsequent `atomixMixerSetGainPan`,
`atomixMixerSetCursor` or `atomixMixerSetState` call on any handle fails and
leaves the mixer untouched, because handle validation requires
`flag > 1`. -/
theorem claim_C7 (lbits : ℕ) (m : atomix_mixer) :
    (∀ lay ∈ (atomixMixerStopAll m).lays, lay.flag = 0 ∨ lay.flag = 1) ∧
    (∀ id gain pan, atomixMixerSetGainPan lbits (atomixMixerStopAll m) id gain pan =
      (atomixMixerStopAll m, false)) ∧
    (∀ id cursor, atomixMixerSetCursor lbits (atomixMixerStopAll m) id cursor =
      (atomixMixerStopAll m, false)) ∧
    (∀ id flag, atomixMixerSetState lbits (atomixMixerStopAll m) id flag =
      (atomixMixerStopAll m, false)) := by
  have hinv : ∀ id : ℕ, ¬ (id = ((atomixMixerStopAll m).lays.getD (id &&& ATMX_LMASK lbits) default).id ∧
      ((atomixMixerStopAll m).lays.getD (id &&& ATMX_LMASK lbits) default).flag > 1) := by
    intro id h
    have := stopAll_flag_le m (id &&& ATMX_LMASK lbits)
    omega
  refine ⟨?_, ?_, ?_, ?_⟩
  · intro lay hmem
    simp only [atomixMixerStopAll, List.mem_map] at hmem
    obtain ⟨a, -, rfl⟩ := hmem
    by_cases ha : a.flag > 1
    all_goals simp [ha]
    all_goals omega
  · intro id gain pan
    unfold atomixMixerSetGainPan
    rw [if_neg (hinv id)]
  · intro id cursor
    unfold atomixMixerSetCursor
    rw [if_neg (hinv id)]
  · intro id flag
    unfold atomixMixerSetState
    by_cases hf : flag < 1 ∨ flag > 4
    · rw [if_pos hf]
    · rw [if_neg hf, if_neg (hinv id)]

/-- Witness for C7 on a concrete 4-layer mixer with one playing layer. -/
theorem claim_C7_witness :
    (∀ lay ∈ (atomixMixerStopAll (atomixMixerPlayAdv 2 (atomixMixerNew 2 1 0) oneSound 3 1 0 0 8 0).1).lays,
      lay.flag = 0 ∨ lay.flag = 1) ∧
    (∀ id gain pan, atomixMixerSetGainPan 2 (atomixMixerStopAll (atomixMixerPlayAdv 2 (atomixMixerNew 2 1 0) oneSound 3 1 0 0 8 0).1) id gain pan =
      (atomixMixerStopAll (atomixMixerPlayAdv 2 (atomixMixerNew 2 1 0) oneSound 3 1 0 0 8 0).1, false)) ∧
    (∀ id cursor, atomixMixerSetCursor 2 (atomixMixerStopAll (atomixMixerPlayAdv 2 (atomixMixerNew 2 1 0) oneSound 3 1 0 0 8 0).1) id cursor =
      (atomixMixerStopAll (atomixMixerPlayAdv 2 (atomixMixerNew 2 1 0) oneSound 3 1 0 0 8 0).1, false)) ∧
    (∀ id flag, atomixMixerSetState 2 (atomixMixerStopAll (atomixMixerPlayAdv 2 (atomixMixerNew 2 1 0) oneSound 3 1 0 0 8 0).1) id flag =
      (atomixMixerStopAll (atomixMixerPlayAdv 2 (atomixMixerNew 2 1 0) oneSound 3 1 0 0 8 0).1, false)) :=
  claim_C7 2 (atomixMixerPlayAdv 2 (atomixMixerNew 2 1 0) oneSound 3 1 0 0 8 0).1

/-! Buffer-length preservation through the mixing kernels. -/

theorem addFrame_length (buff : List ℚ) (dl dr : ℚ) :
    (addFrame buff dl dr).length = buff.length := by
  simp only [addFrame, List.length_append, List.length_zipWith, List.length_drop,
    List.length_cons, List.length_nil]
  omega

theorem addBlock_length (buff inc : List ℚ) :
    (SSE.addBlock buff inc).length = buff.length := by
  simp only [SSE.addBlock, List.length_append, List.length_zipWith, List.length_drop]
  omega

theorem fadeMonoOut_length (snd : atomix_sound) (fmax : ℤ) (gl gr : ℚ) :
    ∀ (n : ℕ) (fade cur : ℤ) (buff : List ℚ),
    ((Scalar.fadeMonoOut snd fmax gl gr n fade cur buff).2.2).length = buff.length := by
  intro n
  induction n with
  | zero => intro fade cur buff; rfl
  | succ n ih =>
    intro fade cur buff
    rw [Scalar.fadeMonoOut]
    by_cases h : fade = 0
    · rw [if_pos h]
    · rw [if_neg h]
      simp only [List.length_append, List.length_take, List.length_drop, ih,
        addFrame_length, apply_ite List.length, ite_self]
      omega

theorem playToEndMono_length (snd : atomix_sound) (end_ : ℤ) (gl gr : ℚ) :
    ∀ (n : ℕ) (cur : ℤ) (buff : List ℚ),
    ((Scalar.playToEndMono snd end_ gl gr n cur buff).2).length = buff.length := by
  intro n
  induction n with
  | zero => intro cur buff; rfl
  | succ n ih =>
    intro cur buff
    rw [Scalar.playToEndMono]
    by_cases h : cur = end_
    · rw [if_pos h]
    · rw [if_neg h]
      simp only [List.length_append, List.length_take, List.length_drop, ih,
        addFrame_length, apply_ite List.length, ite_self]
      omega

theorem fadeStereoOut_length (snd : atomix_sound) (fmax : ℤ) (gl gr : ℚ) :
    ∀ (n : ℕ) (fade cur : ℤ) (buff : List ℚ),
    ((Scalar.fadeStereoOut snd fmax gl gr n fade cur buff).2.2).length = buff.length := by
  intro n
  induction n with
  | zero => intro fade cur buff; rfl
  | succ n ih =>
    intro fade cur buff
    rw [Scalar.fadeStereoOut]
    by_cases h : fade = 0
    · rw [if_pos h]
    · rw [if_neg h]
      simp only [List.length_append, List.length_take, List.length_drop, ih,
        addFrame_length, apply_ite List.length, ite_self]
      omega

theorem playToEndStereo_length (snd : atomix_sound) (end_ : ℤ) (gl gr : ℚ) :
    ∀ (n : ℕ) (cur : ℤ) (buff : List ℚ),
    ((Scalar.playToEndStereo snd end_ gl gr n cur buff).2).length = buff.length := by
  intro n
  induction n with
  | zero => intro cur buff; rfl
  | succ n ih =>
    intro cur buff
    rw [Scalar.playToEndStereo]
    by_cases h : cur = end_
    · rw [if_pos h]
    · rw [if_neg h]
      simp only [List.length_append, List.length_take, List.length_drop, ih,
        addFrame_length, apply_ite List.length, ite_self]
      omega

theorem playMonoFadeIn_length (snd : atomix_sound) (start end_ fmax : ℤ)
    (loop : Bool) (gl gr : ℚ) :
    ∀ (n : ℕ) (fade cur : ℤ) (buff : List ℚ),
    ((Scalar.playMonoFadeIn snd start end_ fmax loop gl gr n fade cur buff).2.2).length = buff.length := by
  intro n
  induction n with
  | zero => intro fade cur buff; rfl
  | succ n ih =>
    intro fade cur buff
    rw [Scalar.playMonoFadeIn]
    by_cases h : cur = end_ ∧ loop = false
    · rw [if_pos h]
    · rw [if_neg h]
      simp only [List.length_append, List.length_take, List.length_drop, ih,
        addFrame_length, apply_ite List.length, ite_self]
      omega

theorem playMonoReg_length (snd : atomix_sound) (start end_ : ℤ)
    (loop : Bool) (gl gr : ℚ) :
    ∀ (n : ℕ) (cur : ℤ) (buff : List ℚ),
    ((Scalar.playMonoReg snd start end_ loop gl gr n cur buff).2).length = buff.length := by
  intro n
  induction n with
  | zero => intro cur buff; rfl
  | succ n ih =>
    intro cur buff
    rw [Scalar.playMonoReg]
    by_cases h : cur = end_ ∧ loop = false
    · rw [if_pos h]
    · rw [if_neg h]
      simp only [List.length_append, List.length_take, List.length_drop, ih,
        addFrame_length, apply_ite List.length, ite_self]
      omega

theorem playStereoFadeIn_length (snd : atomix_sound) (start end_ fmax : ℤ)
    (loop : Bool) (gl gr : ℚ) :
    ∀ (n : ℕ) (fade cur : ℤ) (buff : List ℚ),
    ((Scalar.playStereoFadeIn snd start end_ fmax loop gl gr n fade cur buff).2.2).length = buff.length := by
  intro n
  induction n with
  | zero => intro fade cur buff; rfl
  | succ n ih =>
    intro fade cur buff
    rw [Scalar.playStereoFadeIn]
    by_cases h : cur = end_ ∧ loop = false
    · rw [if_pos h]
    · rw [if_neg h]
      simp only [List.length_append, List.length_take, List.length_drop, ih,
        addFrame_length, apply_ite List.length, ite_self]
      omega

theorem playStereoReg_length (snd : atomix_sound) (start end_ : ℤ)
    (loop : Bool) (gl gr : ℚ) :
    ∀ (n : ℕ) (cur : ℤ) (buff : List ℚ),
    ((Scalar.playStereoReg snd start end_ loop gl gr n cur buff).2).length = buff.length := by
  intro n
  induction n with
  | zero => intro cur buff; rfl
  | succ n ih =>
    intro cur buff
    rw [Scalar.playStereoReg]
    by_cases h : cur = end_ ∧ loop = false
    · rw [if_pos h]
    · rw [if_neg h]
      simp only [List.length_append, List.length_take, List.length_drop, ih,
        addFrame_length, apply_ite List.length, ite_self]
      omega

theorem atmxMixFadeMono_length (lay : atmx_layer) (cur : ℤ) (g : atmx_f2)
    (buff : List ℚ) (fnum : ℕ) :
    ((Scalar.atmxMixFadeMono lay cur g buff fnum).2.2).length = buff.length := by
  rw [Scalar.atmxMixFadeMono]
  by_cases h : lay.fade < lay.end_ - cur
  · rw [if_pos h]
    exact fadeMonoOut_length lay.snd lay.fmax g.l g.r fnum lay.fade cur buff
  · rw [if_neg h]
    exact playToEndMono_length lay.snd lay.end_ g.l g.r fnum cur buff

theorem atmxMixFadeStereo_length (lay : atmx_layer) (cur : ℤ) (g : atmx_f2)
    (buff : List ℚ) (fnum : ℕ) :
    ((Scalar.atmxMixFadeStereo lay cur g buff fnum).2.2).length = buff.length := by
  rw [Scalar.atmxMixFadeStereo]
  by_cases h : lay.fade < lay.end_ - cur
  · rw [if_pos h]
    exact fadeStereoOut_length lay.snd lay.fmax g.l g.r fnum lay.fade cur buff
  · rw [if_neg h]
    exact playToEndStereo_length lay.snd lay.end_ g.l g.r fnum cur buff

theorem atmxMixPlayMono_length (lay : atmx_layer) (loop : Bool) (cur : ℤ)
    (g : atmx_f2) (buff : List ℚ) (fnum : ℕ) :
    ((Scalar.atmxMixPlayMono lay loop cur g buff fnum).2.2).length = buff.length := by
  rw [Scalar.atmxMixPlayMono]
  by_cases h : lay.fade < lay.fmax
  · rw [if_pos h]
    exact playMonoFadeIn_length lay.snd lay.start lay.end_ lay.fmax loop g.l g.r fnum lay.fade cur buff
  · rw [if_neg h]
    exact playMonoReg_length lay.snd lay.start lay.end_ loop g.l g.r fnum cur buff

theorem atmxMixPlayStereo_length (lay : atmx_layer) (loop : Bool) (cur : ℤ)
    (g : atmx_f2) (buff : List ℚ) (fnum : ℕ) :
    ((Scalar.atmxMixPlayStereo lay loop cur g buff fnum).2.2).length = buff.length := by
  rw [Scalar.atmxMixPlayStereo]
  by_cases h : lay.fade < lay.fmax
  · rw [if_pos h]
    exact playStereoFadeIn_length lay.snd lay.start lay.end_ lay.fmax loop g.l g.r fnum lay.fade cur buff
  · rw [if_neg h]
    exact playStereoReg_length lay.snd lay.start lay.end_ loop g.l g.r fnum cur buff

theorem atmxMixLayer_length (lay : atmx_layer) (vol : ℚ) (buff : List ℚ) (fnum : ℕ) :
    ((Scalar.atmxMixLayer lay vol buff fnum).2).length = buff.length := by
  rw [Scalar.atmxMixLayer]
  by_cases h0 : lay.flag = 0
  · rw [if_pos h0]
  · rw [if_neg h0]
    by_cases h3 : lay.flag < 3
    · rw [if_pos h3]
      simp only [apply_ite Prod.snd, ite_self]
      by_cases h1 : 0 < lay.fade ∧ lay.cursor < lay.end_
      · rw [if_pos h1]
        by_cases h2 : lay.snd.cha = 1
        · rw [if_pos h2]
          exact atmxMixFadeMono_length lay lay.cursor _ buff fnum
        · rw [if_neg h2]
          exact atmxMixFadeStereo_length lay lay.cursor _ buff fnum
      · rw [if_neg h1]
    · rw [if_neg h3]
      simp only [apply_ite Prod.snd, ite_self]
      by_cases h2 : lay.snd.cha = 1
      · rw [if_pos h2]
        exact atmxMixPlayMono_length lay _ lay.cursor _ buff fnum
      · rw [if_neg h2]
        exact atmxMixPlayStereo_length lay _ lay.cursor _ buff fnum

theorem mixLays_length (vol : ℚ) (fnum : ℕ) :
    ∀ (lays : List atmx_layer) (buff : List ℚ),
    ((Scalar.mixLays vol fnum lays buff).2).length = buff.length := by
  intro lays
  induction lays with
  | nil => intro buff; rfl
  | cons lay rest ih =>
    intro buff
    rw [Scalar.mixLays]
    simp only [ih, atmxMixLayer_length]

theorem atmxMixLayer_free (lay : atmx_layer) (vol : ℚ) (buff : List ℚ) (fnum : ℕ)
    (h : lay.flag = 0) : Scalar.atmxMixLayer lay vol buff fnum = (lay, buff) := by
  rw [Scalar.atmxMixLayer, if_pos h]

theorem mixLays_free (vol : ℚ) (fnum : ℕ) :
    ∀ (lays : List atmx_layer) (buff : List ℚ), (∀ lay ∈ lays, lay.flag = 0) →
    Scalar.mixLays vol fnum lays buff = (lays, buff) := by
  intro lays
  induction lays with
  | nil => intro buff _; rfl
  | cons lay rest ih =>
    intro buff hall
    have h1 : lay.flag = 0 := hall lay (List.mem_cons_self lay rest)
    have h2 : ∀ x ∈ rest, x.flag = 0 := fun x hx => hall x (List.mem_cons_of_mem lay hx)
    rw [Scalar.mixLays]
    simp only [atmxMixLayer_free lay vol buff fnum h1, ih buff h2]

theorem sseFadeMonoOut_length (snd : atomix_sound) (fmax : ℤ) (gl gr : ℚ) :
    ∀ (n : ℕ) (fade cur : ℤ) (buff : List ℚ),
    ((SSE.fadeMonoOut snd fmax gl gr n fade cur buff).2.2).length = buff.length := by
  intro n
  induction n with
  | zero => intro fade cur buff; rfl
  | succ n ih =>
    intro fade cur buff
    rw [SSE.fadeMonoOut]
    by_cases h : fade = 0
    · rw [if_pos h]
    · rw [if_neg h]
      simp only [List.length_append, List.length_take, List.length_drop, ih,
        addBlock_length, apply_ite List.length, ite_self]
      omega

theorem ssePlayToEndMono_length (snd : atomix_sound) (end_ : ℤ) (gl gr : ℚ) :
    ∀ (n : ℕ) (cur : ℤ) (buff : List ℚ),
    ((SSE.playToEndMono snd end_ gl gr n cur buff).2).length = buff.length := by
  intro n
  induction n with
  | zero => intro cur buff; rfl
  | succ n ih =>
    intro cur buff
    rw [SSE.playToEndMono]
    by_cases h : cur = end_
    · rw [if_pos h]
    · rw [if_neg h]
      simp only [List.length_append, List.length_take, List.length_drop, ih,
        addBlock_length, apply_ite List.length, ite_self]
      omega

theorem sseFadeStereoOut_length (snd : atomix_sound) (fmax : ℤ) (gl gr : ℚ) :
    ∀ (n : ℕ) (fade cur : ℤ) (buff : List ℚ),
    ((SSE.fadeStereoOut snd fmax gl gr n fade cur buff).2.2).length = buff.length := by
  intro n
  induction n with
  | zero => intro fade cur buff; rfl
  | succ n ih =>
    intro fade cur buff
    rw [SSE.fadeStereoOut]
    by_cases h : fade = 0
    · rw [if_pos h]
    · rw [if_neg h]
      simp only [List.length_append, List.length_take, List.length_drop, ih,
        addBlock_length, apply_ite List.length, ite_self]
      omega

theorem ssePlayToEndStereo_length (snd : atomix_sound) (end_ : ℤ) (gl gr : ℚ) :
    ∀ (n : ℕ) (cur : ℤ) (buff : List ℚ),
    ((SSE.playToEndStereo snd end_ gl gr n cur buff).2).length = buff.length := by
  intro n
  induction n with
  | zero => intro cur buff; rfl
  | succ n ih =>
    intro cur buff
    rw [SSE.playToEndStereo]
    by_cases h : cur = end_
    · rw [if_pos h]
    · rw [if_neg h]
      simp only [List.length_append, List.length_take, List.length_drop, ih,
        addBlock_length, apply_ite List.length, ite_self]
      omega

theorem ssePlayMonoFadeIn_length (snd : atomix_sound) (start end_ fmax : ℤ)
    (loop : Bool) (gl gr : ℚ) :
    ∀ (n : ℕ) (fade cur : ℤ) (buff : List ℚ),
    ((SSE.playMonoFadeIn snd start end_ fmax loop gl gr n fade cur buff).2.2).length = buff.length := by
  intro n
  induction n with
  | zero => intro fade cur buff; rfl
  | succ n ih =>
    intro fade cur buff
    rw [SSE.playMonoFadeIn]
    by_cases h : cur = end_ ∧ loop = false
    · rw [if_pos h]
    · rw [if_neg h]
      simp only [List.length_append, List.length_take, List.length_drop, ih,
        addBlock_length, apply_ite List.length, ite_self]
      omega

theorem ssePlayMonoReg_length (snd : atomix_sound) (start end_ : ℤ)
    (loop : Bool) (gl gr : ℚ) :
    ∀ (n : ℕ) (cur : ℤ) (buff : List ℚ),
    ((SSE.playMonoReg snd start end_ loop gl gr n cur buff).2).length = buff.length := by
  intro n
  induction n with
  | zero => intro cur buff; rfl
  | succ n ih =>
    intro cur buff
    rw [SSE.playMonoReg]
    by_cases h : cur = end_ ∧ loop = false
    · rw [if_pos h]
    · rw [if_neg h]
      simp only [List.length_append, List.length_take, List.length_drop, ih,
        addBlock_length, apply_ite List.length, ite_self]
      omega

theorem ssePlayStereoFadeIn_length (snd : atomix_sound) (start end_ fmax : ℤ)
    (loop : Bool) (gl gr : ℚ) :
    ∀ (n : ℕ) (fade cur : ℤ) (buff : List ℚ),
    ((SSE.playStereoFadeIn snd start end_ fmax loop gl gr n fade cur buff).2.2).length = buff.length := by
  intro n
  induction n with
  | zero => intro fade cur buff; rfl
  | succ n ih =>
    intro fade cur buff
    rw [SSE.playStereoFadeIn]
    by_cases h : cur = end_ ∧ loop = false
    · rw [if_pos h]
    · rw [if_neg h]
      simp only [List.length_append, List.length_take, List.length_drop, ih,
        addBlock_length, apply_ite List.length, ite_self]
      omega

theorem ssePlayStereoReg_length (snd : atomix_sound) (start end_ : ℤ)
    (loop : Bool) (gl gr : ℚ) :
    ∀ (n : ℕ) (cur : ℤ) (buff : List ℚ),
    ((SSE.playStereoReg snd start end_ loop gl gr n cur buff).2).length = buff.length := by
  intro n
  induction n with
  | zero => intro cur buff; rfl
  | succ n ih =>
    intro cur buff
    rw [SSE.playStereoReg]
    by_cases h : cur = end_ ∧ loop = false
    · rw [if_pos h]
    · rw [if_neg h]
      simp only [List.length_append, List.length_take, List.length_drop, ih,
        addBlock_length, apply_ite List.length, ite_self]
      omega

theorem sseAtmxMixFadeMono_length (lay : atmx_layer) (cur : ℤ) (g : atmx_f2)
    (buff : List ℚ) (asize : ℕ) :
    ((SSE.atmxMixFadeMono lay cur g buff asize).2.2).length = buff.length := by
  rw [SSE.atmxMixFadeMono]
  by_cases h : lay.fade < lay.end_ - cur
  · rw [if_pos h]
    exact sseFadeMonoOut_length lay.snd lay.fmax g.l g.r ((asize + 1) / 2) lay.fade cur buff
  · rw [if_neg h]
    exact ssePlayToEndMono_length lay.snd lay.end_ g.l g.r ((asize + 1) / 2) cur buff

theorem sseAtmxMixFadeStereo_length (lay : atmx_layer) (cur : ℤ) (g : atmx_f2)
    (buff : List ℚ) (asize : ℕ) :
    ((SSE.atmxMixFadeStereo lay cur g buff asize).2.2).length = buff.length := by
  rw [SSE.atmxMixFadeStereo]
  by_cases h : lay.fade < lay.end_ - cur
  · rw [if_pos h]
    exact sseFadeStereoOut_length lay.snd lay.fmax g.l g.r ((asize + 1) / 2) lay.fade cur buff
  · rw [if_neg h]
    exact ssePlayToEndStereo_length lay.snd lay.end_ g.l g.r ((asize + 1) / 2) cur buff

theorem sseAtmxMixPlayMono_length (lay : atmx_layer) (loop : Bool) (cur : ℤ)
    (g : atmx_f2) (buff : List ℚ) (asize : ℕ) :
    ((SSE.atmxMixPlayMono lay loop cur g buff asize).2.2).length = buff.length := by
  rw [SSE.atmxMixPlayMono]
  by_cases h : lay.fade < lay.fmax
  · rw [if_pos h]
    exact ssePlayMonoFadeIn_length lay.snd lay.start lay.end_ lay.fmax loop g.l g.r ((asize + 1) / 2) lay.fade cur buff
  · rw [if_neg h]
    exact ssePlayMonoReg_length lay.snd lay.start lay.end_ loop g.l g.r ((asize + 1) / 2) cur buff

theorem sseAtmxMixPlayStereo_length (lay : atmx_layer) (loop : Bool) (cur : ℤ)
    (g : atmx_f2) (buff : List ℚ) (asize : ℕ) :
    ((SSE.atmxMixPlayStereo lay loop cur g buff asize).2.2).length = buff.length := by
  rw [SSE.atmxMixPlayStereo]
  by_cases h : lay.fade < lay.fmax
  · rw [if_pos h]
    exact ssePlayStereoFadeIn_length lay.snd lay.start lay.end_ lay.fmax loop g.l g.r ((asize + 1) / 2) lay.fade cur buff
  · rw [if_neg h]
    exact ssePlayStereoReg_length lay.snd lay.start lay.end_ loop g.l g.r ((asize + 1) / 2) cur buff

theorem sseAtmxMixLayer_length (lay : atmx_layer) (vol : ℚ) (buff : List ℚ) (asize : ℕ) :
    ((SSE.atmxMixLayer lay vol buff asize).2).length = buff.length := by
  rw [SSE.atmxMixLayer]
  by_cases h0 : lay.flag = 0
  · rw [if_pos h0]
  · rw [if_neg h0]
    by_cases h3 : lay.flag < 3
    · rw [if_pos h3]
      simp only [apply_ite Prod.snd, ite_self]
      by_cases h1 : 0 < lay.fade ∧ lay.cursor < lay.end_
      · rw [if_pos h1]
        by_cases h2 : lay.snd.cha = 1
        · rw [if_pos h2]
          exact sseAtmxMixFadeMono_length lay lay.cursor _ buff asize
        · rw [if_neg h2]
          exact sseAtmxMixFadeStereo_length lay lay.cursor _ buff asize
      · rw [if_neg h1]
    · rw [if_neg h3]
      simp only [apply_ite Prod.snd, ite_self]
      by_cases h2 : lay.snd.cha = 1
      · rw [if_pos h2]
        exact sseAtmxMixPlayMono_length lay _ lay.cursor _ buff asize
      · rw [if_neg h2]
        exact sseAtmxMixPlayStereo_length lay _ lay.cursor _ buff asize

theorem sseMixLays_length (vol : ℚ) (asize : ℕ) :
    ∀ (lays : List atmx_layer) (buff : List ℚ),
    ((SSE.mixLays vol asize lays buff).2).length = buff.length := by
  intro lays
  induction lays with
  | nil => intro buff; rfl
  | cons lay rest ih =>
    intro buff
    rw [SSE.mixLays]
    simp only [ih, sseAtmxMixLayer_length]

theorem sseAtmxMixLayer_free (lay : atmx_layer) (vol : ℚ) (buff : List ℚ) (asize : ℕ)
    (h : lay.flag = 0) : SSE.atmxMixLayer lay vol buff asize = (lay, buff) := by
  rw [SSE.atmxMixLayer, if_pos h]

theorem sseMixLays_free (vol : ℚ) (asize : ℕ) :
    ∀ (lays : List atmx_layer) (buff : List ℚ), (∀ lay ∈ lays, lay.flag = 0) →
    SSE.mixLays vol asize lays buff = (lays, buff) := by
  intro lays
  induction lays with
  | nil => intro buff _; rfl
  | cons lay rest ih =>
    intro buff hall
    have h1 : lay.flag = 0 := hall lay (List.mem_cons_self lay rest)
    have h2 : ∀ x ∈ rest, x.flag = 0 := fun x hx => hall x (List.mem_cons_of_mem lay hx)
    rw [SSE.mixLays]
    simp only [sseAtmxMixLayer_free lay vol buff asize h1, ih buff h2]

/-! Claims C5 and C4. -/

theorem clip1_bounds (x : ℚ) : -1 ≤ clip1 x ∧ clip1 x ≤ 1 := by
  by_cases h1 : x < -1
  · rw [clip1, if_pos h1]
    norm_num
  · rw [clip1, if_neg h1]
    by_cases h2 : x > 1
    · rw [if_pos h2]
      norm_num
    · rw [if_neg h2]
      constructor <;> linarith

theorem scalarMix_length (m : atomix_mixer) (fnum : ℕ) :
    (Scalar.atomixMixerMix m fnum).2.1.length = 2 * fnum := by
  rw [Scalar.atomixMixerMix]
  simp only [List.length_map, mixLays_length, List.length_replicate]

theorem asize_ge (rnum : ℕ) : rnum * 2 ≤ ((rnum + 3) / 4) * 2 * 4 := by
  have hdm := Nat.div_add_mod (rnum + 3) 4
  have hlt : (rnum + 3) % 4 < 4 := Nat.mod_lt _ (by norm_num)
  omega

theorem sseMix_length (m : atomix_mixer) (fnum : ℕ)
    (h6 : m.data.length = 6) (hrem : m.rem ≤ 3) :
    (SSE.atomixMixerMix m fnum).2.1.length = 2 * fnum := by
  rw [SSE.atomixMixerMix]
  by_cases hc : m.rem ≠ 0 ∧ ¬ fnum > m.rem
  · rw [if_pos hc]
    simp only [List.length_take, h6]
    omega
  · rw [if_neg hc]
    have hup : m.rem = 0 ∨ fnum > m.rem := by
      by_cases h0 : m.rem = 0
      · exact Or.inl h0
      · right
        by_contra hgt
        exact hc ⟨h0, hgt⟩
    have hpre : (if m.rem ≠ 0 then m.data.take (m.rem * 2) else []).length = m.rem * 2 := by
      by_cases h0 : m.rem ≠ 0
      · rw [if_pos h0]
        simp only [List.length_take, h6]
        omega
      · rw [if_neg h0]
        simp only [List.length_nil]
        omega
    have hal := asize_ge (fnum - m.rem)
    simp only [List.length_append, hpre, List.length_take, List.length_map,
      sseMixLays_length, List.length_replicate]
    omega

theorem mixScalar_fresh (lbits : ℕ) (vol : ℚ) (fade : ℤ) (fnum : ℕ) :
    (Scalar.atomixMixerMix (atomixMixerNew lbits vol fade) fnum).2.1 =
      List.replicate (2 * fnum) 0 := by
  have hfree : ∀ lay ∈ (atomixMixerNew lbits vol fade).lays, lay.flag = 0 := by
    intro lay hmem
    have h := List.eq_of_mem_replicate hmem
    rw [h]
    rfl
  rw [Scalar.atomixMixerMix]
  simp only [mixLays_free _ _ _ _ hfree, List.map_replicate]
  have h0 : clip1 0 = 0 := by norm_num [clip1]
  rw [h0]

theorem mixSSE_fresh (lbits : ℕ) (vol : ℚ) (fade : ℤ) (fnum : ℕ) :
    (SSE.atomixMixerMix (atomixMixerNew lbits vol fade) fnum).2.1 =
      List.replicate (2 * fnum) 0 := by
  have hfree : ∀ lay ∈ (atomixMixerNew lbits vol fade).lays, lay.flag = 0 := by
    intro lay hmem
    have h := List.eq_of_mem_replicate hmem
    rw [h]
    rfl
  have hrem : (atomixMixerNew lbits vol fade).rem = 0 := rfl
  rw [SSE.atomixMixerMix]
  rw [if_neg (by simp [hrem])]
  simp only [hrem, ne_eq, not_true_eq_false, if_false, ite_false,
    Nat.sub_zero, sseMixLays_free _ _ _ _ hfree, List.map_replicate,
    List.take_replicate, List.nil_append]
  have h0 : clip1 0 = 0 := by norm_num [clip1]
  rw [h0]
  congr 1
  have := asize_ge fnum
  omega

/-- C5: every mix call returns `fnum` and delivers exactly `2*fnum` floats,
in both the scalar and the SSE path (the SSE statement uses the carry-buffer
well-formedness `|data| = 6` and `rem ≤ 3`, which holds for every reachable
mixer); and mixing 64 frames on a freshly constructed mixer (all layers
FREE) yields 128 zero floats in both paths. -/
theorem claim_C5 (m : atomix_mixer) (fnum : ℕ)
    (h6 : m.data.length = 6) (hrem : m.rem ≤ 3) :
    ((Scalar.atomixMixerMix m fnum).2.1.length = 2 * fnum ∧
     (Scalar.atomixMixerMix m fnum).2.2 = fnum) ∧
    ((SSE.atomixMixerMix m fnum).2.1.length = 2 * fnum ∧
     (SSE.atomixMixerMix m fnum).2.2 = fnum) ∧
    (Scalar.atomixMixerMix (atomixMixerNew 8 (1/2) 0) 64).2.1 = List.replicate 128 0 ∧
    (SSE.atomixMixerMix (atomixMixerNew 8 (1/2) 0) 64).2.1 = List.replicate 128 0 := by
  refine ⟨⟨scalarMix_length m fnum, rfl⟩, ⟨sseMix_length m fnum h6 hrem, ?_⟩, ?_, ?_⟩
  · rw [SSE.atomixMixerMix]
    by_cases hc : m.rem ≠ 0 ∧ ¬ fnum > m.rem
    · rw [if_pos hc]
    · rw [if_neg hc]
  · simpa using mixScalar_fresh 8 (1/2) 0 64
  · simpa using mixSSE_fresh 8 (1/2) 0 64

/-- Witness for C5 on a fresh default-size mixer and a 5-frame request (an
SSE request that is not a multiple of 4, so carry frames are produced). -/
theorem claim_C5_witness :
    ((atomixMixerNew 8 1 0).data.length = 6 ∧ (atomixMixerNew 8 1 0).rem ≤ 3) ∧
    (((Scalar.atomixMixerMix (atomixMixerNew 8 1 0) 5).2.1.length = 2 * 5 ∧
      (Scalar.atomixMixerMix (atomixMixerNew 8 1 0) 5).2.2 = 5) ∧
     ((SSE.atomixMixerMix (atomixMixerNew 8 1 0) 5).2.1.length = 2 * 5 ∧
      (SSE.atomixMixerMix (atomixMixerNew 8 1 0) 5).2.2 = 5) ∧
     (Scalar.atomixMixerMix (atomixMixerNew 8 (1/2) 0) 64).2.1 = List.replicate 128 0 ∧
     (SSE.atomixMixerMix (atomixMixerNew 8 (1/2) 0) 64).2.1 = List.replicate 128 0) :=
  ⟨⟨rfl, by decide⟩, claim_C5 (atomixMixerNew 8 1 0) 5 rfl (by decide)⟩

/-- C4: with clipping enabled, every sample delivered by a mix call lies in
`[-1, 1]`: unconditionally in the scalar path, and in the SSE path under the
invariant that the carry buffer holds only in-range samples — which is also
re-established for the next call (third conjunct), and holds initially since
`atomixMixerNew` zeroes the carry buffer. -/
theorem claim_C4 (m : atomix_mixer) (fnum : ℕ)
    (hd : ∀ x ∈ m.data, -1 ≤ x ∧ x ≤ 1) :
    (∀ x ∈ (Scalar.atomixMixerMix m fnum).2.1, -1 ≤ x ∧ x ≤ 1) ∧
    (∀ x ∈ (SSE.atomixMixerMix m fnum).2.1, -1 ≤ x ∧ x ≤ 1) ∧
    (∀ x ∈ (SSE.atomixMixerMix m fnum).1.data, -1 ≤ x ∧ x ≤ 1) := by
  refine ⟨?_, ?_, ?_⟩
  · intro x hx
    rw [Scalar.atomixMixerMix] at hx
    simp only [List.mem_map] at hx
    obtain ⟨y, -, rfl⟩ := hx
    exact clip1_bounds y
  · intro x hx
    rw [SSE.atomixMixerMix] at hx
    by_cases hc : m.rem ≠ 0 ∧ ¬ fnum > m.rem
    · rw [if_pos hc] at hx
      exact hd x (List.take_subset _ _ hx)
    · rw [if_neg hc] at hx
      simp only [] at hx
      rcases List.mem_append.mp hx with h | h
      · by_cases hr : m.rem ≠ 0
        · rw [if_pos hr] at h
          exact hd x (List.take_subset _ _ h)
        · rw [if_neg hr] at h
          exact absurd h (List.not_mem_nil x)
      · have h2 := List.take_subset _ _ h
        simp only [List.mem_map] at h2
        obtain ⟨y, -, rfl⟩ := h2
        exact clip1_bounds y
  · intro x hx
    rw [SSE.atomixMixerMix] at hx
    by_cases hc : m.rem ≠ 0 ∧ ¬ fnum > m.rem
    · rw [if_pos hc] at hx
      simp only [] at hx
      by_cases hr : m.rem - fnum ≠ 0
      · rw [if_pos hr] at hx
        rcases List.mem_append.mp hx with h | h
        · exact hd x (List.drop_subset _ _ (List.take_subset _ _ h))
        · exact hd x (List.drop_subset _ _ h)
      · rw [if_neg hr] at hx
        exact hd x hx
    · rw [if_neg hc] at hx
      simp only [] at hx
      by_cases hr : ((fnum - m.rem + 3) / 4) * 2 * 2 - (fnum - m.rem) ≠ 0
      · rw [if_pos hr] at hx
        rcases List.mem_append.mp hx with h | h
        · have h2 := List.drop_subset _ _ (List.take_subset _ _ h)
          simp only [List.mem_map] at h2
          obtain ⟨y, -, rfl⟩ := h2
          exact clip1_bounds y
        · exact hd x (List.drop_subset _ _ h)
      · rw [if_neg hr] at hx
        exact hd x hx

/-- Witness for C4 on a fresh default-size mixer (zeroed carry buffer) and a
6-frame request. -/
theorem claim_C4_witness :
    (∀ x ∈ (atomixMixerNew 8 1 0).data, -1 ≤ x ∧ x ≤ 1) ∧
    ((∀ x ∈ (Scalar.atomixMixerMix (atomixMixerNew 8 1 0) 6).2.1, -1 ≤ x ∧ x ≤ 1) ∧
     (∀ x ∈ (SSE.atomixMixerMix (atomixMixerNew 8 1 0) 6).2.1, -1 ≤ x ∧ x ≤ 1) ∧
     (∀ x ∈ (SSE.atomixMixerMix (atomixMixerNew 8 1 0) 6).1.data, -1 ≤ x ∧ x ≤ 1)) :=
  have hd : ∀ x ∈ (atomixMixerNew 8 1 0).data, -1 ≤ x ∧ x ≤ 1 := by
    intro x hx
    have h := List.eq_of_mem_replicate hx
    rw [h]
    norm_num
  ⟨hd, claim_C4 (atomixMixerNew 8 1 0) 6 hd⟩

/-! Claims C6, C1, C10 and C3: layer allocation and state control. -/

theorem two_pow_and_mask (lbits : ℕ) : ATMX_LAYERS lbits &&& ATMX_LMASK lbits = 0 := by
  rw [and_mask_eq_mod]
  exact Nat.mod_self (ATMX_LAYERS lbits)

theorem playAdvLoop_success (lbits : ℕ) (snd : atomix_sound) (flag : ℕ) (gain pan : ℚ)
    (start end_ fade : ℤ) :
    ∀ (n : ℕ) (lays : List atmx_layer) (nid : ℕ),
    lays.length = ATMX_LAYERS lbits →
    (playAdvLoop lbits snd flag gain pan start end_ fade n lays nid).2.2 ≠ 0 →
    ((playAdvLoop lbits snd flag gain pan start end_ fade n lays nid).1.getD
      ((playAdvLoop lbits snd flag gain pan start end_ fade n lays nid).2.2 &&& ATMX_LMASK lbits) default)
      = newLayer snd flag gain pan start end_ fade
          (playAdvLoop lbits snd flag gain pan start end_ fade n lays nid).2.2 := by
  intro n
  induction n with
  | zero =>
    intro lays nid hlen h
    exact absurd rfl h
  | succ n ih =>
    intro lays nid hlen h
    simp only [playAdvLoop] at h ⊢
    by_cases hf : (lays.getD (nid &&& ATMX_LMASK lbits) default).flag = 0
    · rw [if_pos hf] at h ⊢
      have hslot : (if nid = 0 then ATMX_LAYERS lbits else nid) &&& ATMX_LMASK lbits
          = nid &&& ATMX_LMASK lbits := by
        by_cases h0 : nid = 0
        · rw [if_pos h0, h0, and_mask_eq_mod, and_mask_eq_mod, Nat.mod_self, Nat.zero_mod]
        · rw [if_neg h0]
      show (lays.set (nid &&& ATMX_LMASK lbits) _).getD
          ((if nid = 0 then ATMX_LAYERS lbits else nid) &&& ATMX_LMASK lbits) default = _
      rw [hslot]
      exact getD_set_self lays (nid &&& ATMX_LMASK lbits) _ default
        (by rw [hlen]; exact slot_le_mask lbits nid)
    · rw [if_neg hf] at h ⊢
      exact ih lays ((nid + 1) % U32) hlen h

theorem playAdv_success_layer (lbits : ℕ) (m : atomix_mixer) (snd : atomix_sound)
    (flag : ℕ) (gain pan : ℚ) (start end_ fade : ℤ)
    (hlen : m.lays.length = ATMX_LAYERS lbits)
    (hh : (atomixMixerPlayAdv lbits m snd flag gain pan start end_ fade).2 ≠ 0) :
    ((atomixMixerPlayAdv lbits m snd flag gain pan start end_ fade).1.lays.getD
      ((atomixMixerPlayAdv lbits m snd flag gain pan start end_ fade).2 &&& ATMX_LMASK lbits) default)
      = newLayer snd flag gain pan start end_ fade
          (atomixMixerPlayAdv lbits m snd flag gain pan start end_ fade).2 := by
  rw [atomixMixerPlayAdv] at hh ⊢
  by_cases h1 : flag < 1 ∨ flag > 4
  · rw [if_pos h1] at hh
    exact absurd rfl hh
  · rw [if_neg h1] at hh ⊢
    by_cases h2 : end_ - start < 4 ∨ end_ < 4
    · rw [if_pos h2] at hh
      exact absurd rfl hh
    · rw [if_neg h2] at hh ⊢
      exact playAdvLoop_success lbits snd flag gain pan start end_ fade
        (ATMX_LAYERS lbits) m.lays m.nid hlen hh

/-- C6: every successful play_adv returns a nonzero handle `h` such that the
layer at slot `h & (L-1)` has `id = h` and `flag` equal to the requested
state, immediately after the call; and the substituted handle value
`ATMX_LAYERS` masks to slot 0, the same slot the pre-substitution counter
value 0 addresses. -/
theorem claim_C6 (lbits : ℕ) (m : atomix_mixer) (snd : atomix_sound)
    (flag : ℕ) (gain pan : ℚ) (start end_ fade : ℤ)
    (hlen : m.lays.length = ATMX_LAYERS lbits)
    (hh : (atomixMixerPlayAdv lbits m snd flag gain pan start end_ fade).2 ≠ 0) :
    ((atomixMixerPlayAdv lbits m snd flag gain pan start end_ fade).1.lays.getD
      ((atomixMixerPlayAdv lbits m snd flag gain pan start end_ fade).2 &&& ATMX_LMASK lbits) default).id
      = (atomixMixerPlayAdv lbits m snd flag gain pan start end_ fade).2 ∧
    ((atomixMixerPlayAdv lbits m snd flag gain pan start end_ fade).1.lays.getD
      ((atomixMixerPlayAdv lbits m snd flag gain pan start end_ fade).2 &&& ATMX_LMASK lbits) default).flag
      = flag ∧
    ATMX_LAYERS lbits &&& ATMX_LMASK lbits = 0 ∧ 0 &&& ATMX_LMASK lbits = 0 := by
  have h := playAdv_success_layer lbits m snd flag gain pan start end_ fade hlen hh
  rw [h]
  exact ⟨rfl, rfl, two_pow_and_mask lbits, Nat.zero_and _⟩

/-- Witness for C6: on a fresh 4-layer mixer the counter would yield handle
0, so the returned handle is `ATMX_LAYERS = 4`, stored in slot 0. -/
theorem claim_C6_witness :
    ((atomixMixerNew 2 1 0).lays.length = ATMX_LAYERS 2 ∧
     (atomixMixerPlayAdv 2 (atomixMixerNew 2 1 0) oneSound 3 1 0 0 8 0).2 ≠ 0) ∧
    (((atomixMixerPlayAdv 2 (atomixMixerNew 2 1 0) oneSound 3 1 0 0 8 0).1.lays.getD
       ((atomixMixerPlayAdv 2 (atomixMixerNew 2 1 0) oneSound 3 1 0 0 8 0).2 &&& ATMX_LMASK 2) default).id
       = (atomixMixerPlayAdv 2 (atomixMixerNew 2 1 0) oneSound 3 1 0 0 8 0).2 ∧
     ((atomixMixerPlayAdv 2 (atomixMixerNew 2 1 0) oneSound 3 1 0 0 8 0).1.lays.getD
       ((atomixMixerPlayAdv 2 (atomixMixerNew 2 1 0) oneSound 3 1 0 0 8 0).2 &&& ATMX_LMASK 2) default).flag
       = 3 ∧
     ATMX_LAYERS 2 &&& ATMX_LMASK 2 = 0 ∧ 0 &&& ATMX_LMASK 2 = 0) :=
  ⟨⟨by decide, by decide⟩,
   claim_C6 2 (atomixMixerNew 2 1 0) oneSound 3 1 0 0 8 0 (by decide) (by decide)⟩

/-- C1 counterexample: on a fresh 4-layer mixer with volume 1, playing the
constant-1 mono sound in state PLAY (3) with gain 1, pan 0, fade 4 leaves
the allocated layer's fade counter at 4 = fmax (not 0 as the claim states),
and the first 4 scalar output frames have left channel 1/2 (not the claimed
fade-in ramp 0, 1/4, 1/2, 3/4). -/
theorem claim_C1_counterexample :
    ((atomixMixerPlayAdv 2 (atomixMixerNew 2 1 0) oneSound 3 1 0 0 8 4).1.lays.getD 0 default).fade ≠ 0 ∧
    (Scalar.atomixMixerMix (atomixMixerPlayAdv 2 (atomixMixerNew 2 1 0) oneSound 3 1 0 0 8 4).1 4).2.1 ≠
      [0, 0, 1/4, 1/4, 1/2, 1/2, 3/4, 3/4] := by
  constructor <;> decide

/-- C1 amended: for every successful play/play_adv allocation the layer's
fade counter is initialised to `fmax` when the requested initial state is
PLAY (3) or LOOP (4) — the layer starts fully faded in — and to 0 when it is
STOP (1) or HALT (2) — the layer starts fully faded out and fades in when
later set to PLAY/LOOP; consequently a layer started in state PLAY with
fmax = 4, gain = 1, pan = 0, volume = 1 on a constant-1 mono sound produces
first-4-frame left-channel (and right-channel) values `[1/2, 1/2, 1/2, 1/2]`
in the scalar path. -/
theorem claim_C1 (lbits : ℕ) (m : atomix_mixer) (snd : atomix_sound)
    (flag : ℕ) (gain pan : ℚ) (start end_ fade : ℤ)
    (hlen : m.lays.length = ATMX_LAYERS lbits)
    (hh : (atomixMixerPlayAdv lbits m snd flag gain pan start end_ fade).2 ≠ 0) :
    ((atomixMixerPlayAdv lbits m snd flag gain pan start end_ fade).1.lays.getD
      ((atomixMixerPlayAdv lbits m snd flag gain pan start end_ fade).2 &&& ATMX_LMASK lbits) default).fade
      = (if flag < 3 then 0 else if fade < 0 then 0 else trunc4 fade) ∧
    ((atomixMixerPlayAdv lbits m snd flag gain pan start end_ fade).1.lays.getD
      ((atomixMixerPlayAdv lbits m snd flag gain pan start end_ fade).2 &&& ATMX_LMASK lbits) default).fmax
      = (if fade < 0 then 0 else trunc4 fade) ∧
    (Scalar.atomixMixerMix (atomixMixerPlayAdv 2 (atomixMixerNew 2 1 0) oneSound 3 1 0 0 8 4).1 4).2.1
      = List.replicate 8 (1/2) := by
  have h := playAdv_success_layer lbits m snd flag gain pan start end_ fade hlen hh
  rw [h]
  refine ⟨rfl, rfl, by decide⟩

/-- Witness for C1 (amended) at the concrete scenario of the claim. -/
theorem claim_C1_witness :
    ((atomixMixerNew 2 1 0).lays.length = ATMX_LAYERS 2 ∧
     (atomixMixerPlayAdv 2 (atomixMixerNew 2 1 0) oneSound 3 1 0 0 8 4).2 ≠ 0) ∧
    (((atomixMixerPlayAdv 2 (atomixMixerNew 2 1 0) oneSound 3 1 0 0 8 4).1.lays.getD
       ((atomixMixerPlayAdv 2 (atomixMixerNew 2 1 0) oneSound 3 1 0 0 8 4).2 &&& ATMX_LMASK 2) default).fade
       = (if (3:ℕ) < 3 then 0 else if (4:ℤ) < 0 then 0 else trunc4 4) ∧
     ((atomixMixerPlayAdv 2 (atomixMixerNew 2 1 0) oneSound 3 1 0 0 8 4).1.lays.getD
       ((atomixMixerPlayAdv 2 (atomixMixerNew 2 1 0) oneSound 3 1 0 0 8 4).2 &&& ATMX_LMASK 2) default).fmax
       = (if (4:ℤ) < 0 then 0 else trunc4 4) ∧
     (Scalar.atomixMixerMix (atomixMixerPlayAdv 2 (atomixMixerNew 2 1 0) oneSound 3 1 0 0 8 4).1 4).2.1
       = List.replicate 8 (1/2)) :=
  ⟨⟨by decide, by decide⟩,
   claim_C1 2 (atomixMixerNew 2 1 0) oneSound 3 1 0 0 8 4 (by decide) (by decide)⟩

theorem playAdvLoop_full (lbits : ℕ) (snd : atomix_sound) (flag : ℕ) (gain pan : ℚ)
    (start end_ fade : ℤ) :
    ∀ (n : ℕ) (lays : List atmx_layer) (nid : ℕ),
    lays.length = ATMX_LAYERS lbits → nid < U32 →
    (∀ lay ∈ lays, lay.flag ≠ 0) →
    playAdvLoop lbits snd flag gain pan start end_ fade n lays nid
      = (lays, (nid + n) % U32, 0) := by
  intro n
  induction n with
  | zero =>
    intro lays nid hlen hnid hfull
    rw [playAdvLoop, Nat.add_zero, Nat.mod_eq_of_lt hnid]
  | succ n ih =>
    intro lays nid hlen hnid hfull
    have hslot : nid &&& ATMX_LMASK lbits < lays.length := by
      rw [hlen]
      exact slot_le_mask lbits nid
    have hmem : lays.getD (nid &&& ATMX_LMASK lbits) default ∈ lays := by
      rw [List.getD_eq_getElem?_getD, List.getElem?_eq_getElem hslot]
      exact List.getElem_mem hslot
    have hne := hfull _ hmem
    rw [playAdvLoop]
    simp only [if_neg hne]
    rw [ih lays ((nid + 1) % U32) hlen (Nat.mod_lt _ (by norm_num [U32])) hfull]
    rw [Nat.mod_add_mod]
    have harith : nid + 1 + n = nid + (n + 1) := by omega
    rw [harith]

/-- C10: a play_adv call with valid arguments on a mixer with no FREE layer
returns handle 0 with the layer table (and every other mixer field except
`nid`) unchanged, and `nid` advanced by exactly `ATMX_LAYERS = 2^lbits`
modulo `2^32`, so `nid mod ATMX_LAYERS` — the starting probe slot of the
next allocation — is unchanged by the failed call. -/
theorem claim_C10 (lbits : ℕ) (m : atomix_mixer) (snd : atomix_sound)
    (flag : ℕ) (gain pan : ℚ) (start end_ fade : ℤ)
    (hlen : m.lays.length = ATMX_LAYERS lbits) (hnid : m.nid < U32) (hl : lbits ≤ 32)
    (hflag : 1 ≤ flag ∧ flag ≤ 4) (hwin : 4 ≤ end_ - start ∧ 4 ≤ end_)
    (hfull : ∀ lay ∈ m.lays, lay.flag ≠ 0) :
    (atomixMixerPlayAdv lbits m snd flag gain pan start end_ fade).2 = 0 ∧
    (atomixMixerPlayAdv lbits m snd flag gain pan start end_ fade).1.lays = m.lays ∧
    (atomixMixerPlayAdv lbits m snd flag gain pan start end_ fade).1.nid
      = (m.nid + ATMX_LAYERS lbits) % U32 ∧
    (atomixMixerPlayAdv lbits m snd flag gain pan start end_ fade).1.nid % ATMX_LAYERS lbits
      = m.nid % ATMX_LAYERS lbits ∧
    (atomixMixerPlayAdv lbits m snd flag gain pan start end_ fade).1.volume = m.volume ∧
    (atomixMixerPlayAdv lbits m snd flag gain pan start end_ fade).1.fade = m.fade ∧
    (atomixMixerPlayAdv lbits m snd flag gain pan start end_ fade).1.rem = m.rem ∧
    (atomixMixerPlayAdv lbits m snd flag gain pan start end_ fade).1.data = m.data := by
  have hr : atomixMixerPlayAdv lbits m snd flag gain pan start end_ fade
      = ({ m with nid := (m.nid + ATMX_LAYERS lbits) % U32 }, 0) := by
    rw [atomixMixerPlayAdv, if_neg (by omega), if_neg (by omega),
      playAdvLoop_full lbits snd flag gain pan start end_ fade
        (ATMX_LAYERS lbits) m.lays m.nid hlen hnid hfull]
  rw [hr]
  have hdvd : ATMX_LAYERS lbits ∣ U32 := pow_dvd_pow 2 hl
  refine ⟨rfl, rfl, rfl, ?_, rfl, rfl, rfl, rfl⟩
  show (m.nid + ATMX_LAYERS lbits) % U32 % ATMX_LAYERS lbits = m.nid % ATMX_LAYERS lbits
  rw [Nat.mod_mod_of_dvd _ hdvd, Nat.add_mod_right]

/-- Witness for C10 on a full single-layer mixer (`lbits = 0`). -/
theorem claim_C10_witness :
    ((atomixMixerPlayAdv 0 (atomixMixerNew 0 1 0) oneSound 4 1 0 0 8 0).1.lays.length = ATMX_LAYERS 0 ∧
     (atomixMixerPlayAdv 0 (atomixMixerNew 0 1 0) oneSound 4 1 0 0 8 0).1.nid < U32 ∧
     (0:ℕ) ≤ 32 ∧ ((1:ℕ) ≤ 3 ∧ (3:ℕ) ≤ 4) ∧ ((4:ℤ) ≤ 8 - 0 ∧ (4:ℤ) ≤ 8) ∧
     (∀ lay ∈ (atomixMixerPlayAdv 0 (atomixMixerNew 0 1 0) oneSound 4 1 0 0 8 0).1.lays, lay.flag ≠ 0)) ∧
    ((atomixMixerPlayAdv 0 (atomixMixerPlayAdv 0 (atomixMixerNew 0 1 0) oneSound 4 1 0 0 8 0).1 oneSound 3 1 0 0 8 0).2 = 0 ∧
     (atomixMixerPlayAdv 0 (atomixMixerPlayAdv 0 (atomixMixerNew 0 1 0) oneSound 4 1 0 0 8 0).1 oneSound 3 1 0 0 8 0).1.lays
       = (atomixMixerPlayAdv 0 (atomixMixerNew 0 1 0) oneSound 4 1 0 0 8 0).1.lays ∧
     (atomixMixerPlayAdv 0 (atomixMixerPlayAdv 0 (atomixMixerNew 0 1 0) oneSound 4 1 0 0 8 0).1 oneSound 3 1 0 0 8 0).1.nid
       = ((atomixMixerPlayAdv 0 (atomixMixerNew 0 1 0) oneSound 4 1 0 0 8 0).1.nid + ATMX_LAYERS 0) % U32 ∧
     (atomixMixerPlayAdv 0 (atomixMixerPlayAdv 0 (atomixMixerNew 0 1 0) oneSound 4 1 0 0 8 0).1 oneSound 3 1 0 0 8 0).1.nid % ATMX_LAYERS 0
       = (atomixMixerPlayAdv 0 (atomixMixerNew 0 1 0) oneSound 4 1 0 0 8 0).1.nid % ATMX_LAYERS 0 ∧
     (atomixMixerPlayAdv 0 (atomixMixerPlayAdv 0 (atomixMixerNew 0 1 0) oneSound 4 1 0 0 8 0).1 oneSound 3 1 0 0 8 0).1.volume
       = (atomixMixerPlayAdv 0 (atomixMixerNew 0 1 0) oneSound 4 1 0 0 8 0).1.volume ∧
     (atomixMixerPlayAdv 0 (atomixMixerPlayAdv 0 (atomixMixerNew 0 1 0) oneSound 4 1 0 0 8 0).1 oneSound 3 1 0 0 8 0).1.fade
       = (atomixMixerPlayAdv 0 (atomixMixerNew 0 1 0) oneSound 4 1 0 0 8 0).1.fade ∧
     (atomixMixerPlayAdv 0 (atomixMixerPlayAdv 0 (atomixMixerNew 0 1 0) oneSound 4 1 0 0 8 0).1 oneSound 3 1 0 0 8 0).1.rem
       = (atomixMixerPlayAdv 0 (atomixMixerNew 0 1 0) oneSound 4 1 0 0 8 0).1.rem ∧
     (atomixMixerPlayAdv 0 (atomixMixerPlayAdv 0 (atomixMixerNew 0 1 0) oneSound 4 1 0 0 8 0).1 oneSound 3 1 0 0 8 0).1.data
       = (atomixMixerPlayAdv 0 (atomixMixerNew 0 1 0) oneSound 4 1 0 0 8 0).1.data) :=
  ⟨⟨by decide, by decide, by decide, ⟨by decide, by decide⟩, ⟨by decide, by decide⟩, by decide⟩,
   claim_C10 0 (atomixMixerPlayAdv 0 (atomixMixerNew 0 1 0) oneSound 4 1 0 0 8 0).1 oneSound
     3 1 0 0 8 0 (by decide) (by decide) (by decide) ⟨by decide, by decide⟩
     ⟨by decide, by decide⟩ (by decide)⟩

/-- C3 counterexample: a layer allocated in state STOP (1) has a valid
handle by the claim's own definition (the slot's id equals the handle and
its flag is STOP, not FREE), yet set_state to PLAY fails, because handle
validation requires `flag > 1`. -/
theorem claim_C3_counterexample :
    ((atomixMixerPlayAdv 2 (atomixMixerNew 2 1 0) oneSound 1 1 0 0 8 0).1.lays.getD
       ((atomixMixerPlayAdv 2 (atomixMixerNew 2 1 0) oneSound 1 1 0 0 8 0).2 &&& ATMX_LMASK 2) default).id
      = (atomixMixerPlayAdv 2 (atomixMixerNew 2 1 0) oneSound 1 1 0 0 8 0).2 ∧
    ((atomixMixerPlayAdv 2 (atomixMixerNew 2 1 0) oneSound 1 1 0 0 8 0).1.lays.getD
       ((atomixMixerPlayAdv 2 (atomixMixerNew 2 1 0) oneSound 1 1 0 0 8 0).2 &&& ATMX_LMASK 2) default).flag
      = 1 ∧
    (atomixMixerSetState 2 (atomixMixerPlayAdv 2 (atomixMixerNew 2 1 0) oneSound 1 1 0 0 8 0).1
       (atomixMixerPlayAdv 2 (atomixMixerNew 2 1 0) oneSound 1 1 0 0 8 0).2 3).2 = false := by
  refine ⟨by decide, by decide, by decide⟩

/-- C3 amended: for a handle addressing a slot whose id matches and whose
flag is HALT, PLAY or LOOP (`flag > 1` — NOT from STOP, where validation
fails), set_state to any state in {STOP, HALT, PLAY, LOOP} succeeds and
stores that state; and set_state never moves a layer to or from FREE: any
successful call had a target state in {1..4} and a pre-state above STOP. -/
theorem claim_C3 (lbits : ℕ) (m : atomix_mixer) (id flag : ℕ)
    (hlen : m.lays.length = ATMX_LAYERS lbits)
    (hflag : 1 ≤ flag ∧ flag ≤ 4)
    (hid : (m.lays.getD (id &&& ATMX_LMASK lbits) default).id = id)
    (hst : 1 < (m.lays.getD (id &&& ATMX_LMASK lbits) default).flag) :
    (atomixMixerSetState lbits m id flag).2 = true ∧
    ((atomixMixerSetState lbits m id flag).1.lays.getD (id &&& ATMX_LMASK lbits) default).flag = flag ∧
    (∀ (m2 : atomix_mixer) (id2 f2 : ℕ), (atomixMixerSetState lbits m2 id2 f2).2 = true →
      1 ≤ f2 ∧ f2 ≤ 4 ∧ 1 < (m2.lays.getD (id2 &&& ATMX_LMASK lbits) default).flag) := by
  have hv : ¬ (flag < 1 ∨ flag > 4) := by omega
  have hcond : id = (m.lays.getD (id &&& ATMX_LMASK lbits) default).id ∧
      (m.lays.getD (id &&& ATMX_LMASK lbits) default).flag > 1 := ⟨hid.symm, hst⟩
  refine ⟨?_, ?_, ?_⟩
  · rw [atomixMixerSetState, if_neg hv]
    simp only [if_pos hcond]
    by_cases he : (m.lays.getD (id &&& ATMX_LMASK lbits) default).flag = flag
    · rw [if_pos he]
    · rw [if_neg he]
  · rw [atomixMixerSetState, if_neg hv]
    simp only [if_pos hcond]
    by_cases he : (m.lays.getD (id &&& ATMX_LMASK lbits) default).flag = flag
    · rw [if_pos he]
      exact he
    · rw [if_neg he]
      show ((m.lays.set (id &&& ATMX_LMASK lbits) _).getD (id &&& ATMX_LMASK lbits) default).flag = flag
      rw [getD_set_self m.lays (id &&& ATMX_LMASK lbits) _ default
        (by rw [hlen]; exact slot_le_mask lbits id)]
  · intro m2 id2 f2 hsucc
    rw [atomixMixerSetState] at hsucc
    by_cases hv2 : f2 < 1 ∨ f2 > 4
    · rw [if_pos hv2] at hsucc
      exact absurd hsucc (by simp)
    · simp only [if_neg hv2] at hsucc
      by_cases hc2 : id2 = (m2.lays.getD (id2 &&& ATMX_LMASK lbits) default).id ∧
          (m2.lays.getD (id2 &&& ATMX_LMASK lbits) default).flag > 1
      · exact ⟨by omega, by omega, hc2.2⟩
      · rw [if_neg hc2] at hsucc
        exact absurd hsucc (by simp)

/-- Witness for C3 (amended): a layer allocated in HALT (2) is moved to
LOOP (4) successfully. -/
theorem claim_C3_witness :
    ((atomixMixerPlayAdv 2 (atomixMixerNew 2 1 0) oneSound 2 1 0 0 8 0).1.lays.length = ATMX_LAYERS 2 ∧
     ((1:ℕ) ≤ 4 ∧ (4:ℕ) ≤ 4) ∧
     ((atomixMixerPlayAdv 2 (atomixMixerNew 2 1 0) oneSound 2 1 0 0 8 0).1.lays.getD
        (4 &&& ATMX_LMASK 2) default).id = 4 ∧
     1 < ((atomixMixerPlayAdv 2 (atomixMixerNew 2 1 0) oneSound 2 1 0 0 8 0).1.lays.getD
        (4 &&& ATMX_LMASK 2) default).flag) ∧
    ((atomixMixerSetState 2 (atomixMixerPlayAdv 2 (atomixMixerNew 2 1 0) oneSound 2 1 0 0 8 0).1 4 4).2 = true ∧
     ((atomixMixerSetState 2 (atomixMixerPlayAdv 2 (atomixMixerNew 2 1 0) oneSound 2 1 0 0 8 0).1 4 4).1.lays.getD
        (4 &&& ATMX_LMASK 2) default).flag = 4 ∧
     (∀ (m2 : atomix_mixer) (id2 f2 : ℕ), (atomixMixerSetState 2 m2 id2 f2).2 = true →
       1 ≤ f2 ∧ f2 ≤ 4 ∧ 1 < (m2.lays.getD (id2 &&& ATMX_LMASK 2) default).flag)) :=
  ⟨⟨by decide, ⟨by decide, by decide⟩, by decide, by decide⟩,
   claim_C3 2 (atomixMixerPlayAdv 2 (atomixMixerNew 2 1 0) oneSound 2 1 0 0 8 0).1 4 4
     (by decide) ⟨by decide, by decide⟩ (by decide) (by decide)⟩

/-- C2 (code bug): two consecutive 2-frame SSE mix calls on a fresh carry
state.  The first call's mixing loop produces `asize = 2` `__m128`s = 4
frames = 32 bytes, modelled as the distinct nonzero byte values 100..131;
it delivers the first 16 bytes (2 frames) and should save the remaining 2
frames (16 bytes) into the carry buffer, but the C source passes `mix->rem`
(= 2, a FRAME count) as the BYTE count of that `memcpy`, so only bytes 116
and 117 land in the carry buffer.  The second call is satisfied from the
carry buffer (rare case) and delivers `[116, 117, 0, ..., 0]` — stale zero
bytes instead of the produced bytes 118..131 — so the stream delivered
across the two calls is not the stream the mixing loop produced. -/
theorem claim_C2_code_bug :
    (mixBytes ⟨0, List.replicate 24 0⟩ 2 ((List.range 32).map (fun k => k + 100))).2 ++
      (mixBytes (mixBytes ⟨0, List.replicate 24 0⟩ 2 ((List.range 32).map (fun k => k + 100))).1 2 []).2
      ≠ (List.range 32).map (fun k => k + 100) ∧
    (mixBytes ⟨0, List.replicate 24 0⟩ 2 ((List.range 32).map (fun k => k + 100))).1.rem = 2 ∧
    (mixBytes (mixBytes ⟨0, List.replicate 24 0⟩ 2 ((List.range 32).map (fun k => k + 100))).1 2 []).2
      = [116, 117, 0, 0, 0, 0, 0, 0, 0, 0, 0, 0, 0, 0, 0, 0] := by
  refine ⟨by decide, by decide, by decide⟩

end Atomix
